import Mathlib

/-!
# Verification of the MineSkin generation engine

A shallow embedding of the generation engine of `api.mineskin.org`
(`routes/render.ts` — the `Generator` class, `database/schemas/Skin.ts` —
the account schema statics, and `generator/authentication.js`), together
with proofs and refutations of the specification claims about it.

External collaborators of the engine (the HTTP stack, the Mongo driver,
the `Jimp`/`image-size`/`file-type` image libraries, the perceptual hash,
the regular-expression engine and the temp-file manager) are modelled as
oracle inputs carried by an environment record: the engine's own control
flow and data transformations are translated statement by statement from
the source.
-/

deriving instance DecidableEq for Except

namespace MineSkin

/-! ## Basic enumerations (types/ISkinDocument.ts, routes/render.ts) -/

/-- `SkinModel` from the TS sources: values `CLASSIC`, `SLIM`, `UNKNOWN`.
The Mongo schema stores the model as one of the strings
`"steve" | "slim" | "unknown"` (`SkinSchema` field `model`). -/
inductive SkinModel where
  | classic
  | slim
  | unknown
deriving DecidableEq, Repr

/-- The string stored in the `model` column for each `SkinModel` value,
following the `model` enum of `SkinSchema` (`["steve", "slim", "unknown"]`). -/
def SkinModel.str : SkinModel → String
  | .classic => "steve"
  | .slim => "slim"
  | .unknown => "unknown"

/-- `GenerateType` enum: which input adapter produced a generation. -/
inductive GenerateType where
  | url
  | upload
  | user
deriving DecidableEq, Repr

/-- `GenError` enum of `routes/render.ts`. -/
inductive GenError where
  | FAILED_TO_CREATE_ID
  | NO_ACCOUNT_AVAILABLE
  | SKIN_CHANGE_FAILED
  | INVALID_IMAGE
  | INVALID_IMAGE_URL
  | INVALID_IMAGE_UPLOAD
  | INVALID_SKIN_DATA
deriving DecidableEq, Repr

/-- Errors that can flow through a generation attempt: a `GeneratorError`
carrying a `GenError` code, an `AuthenticationError` (its own class in the
TS source, tested with `instanceof` in `handleGenerateError`), or any other
thrown value. -/
inductive RunError where
  | gen (e : GenError)
  | authError
  | other
deriving DecidableEq, Repr

/-- `DuplicateSource` enum of `routes/render.ts`. -/
inductive DuplicateSource where
  | mineskinUrl
  | textureUrl
  | imageHash
  | userUuid
deriving DecidableEq, Repr

/-! ## Image validation (`Generator.validateImageData`, render.ts:726) -/

/-- The in-memory decoded image as the `Jimp` library presents it:
dimensions plus per-pixel alpha channel.  `alpha x y` is the value
`bitmap.data[idx + 3]` for the pixel at column `x`, row `y`. -/
structure JimpImage where
  width : Nat
  height : Nat
  alpha : Nat → Nat → Nat

/-- The pixel coordinates visited by `image.scan(54, 20, 2, 12, …)`:
columns `x ∈ [54, 56)`, rows `y ∈ [20, 32)`. -/
def scanRect : List (Nat × Nat) :=
  (List.range 2).flatMap (fun dx => (List.range 12).map (fun dy => (54 + dx, 20 + dy)))

/-- `Generator.validateImageData`: rejects images that are not 64×32 or
64×64; a 64×32 image is `classic`; for a 64×64 image it scans the alpha
channel of the rectangle `scanRect`, clearing `allTransparent` whenever a
pixel has alpha exactly 255, and returns `slim` iff `allTransparent`
survived the scan. -/
def validateImageData (image : JimpImage) : Except GenError SkinModel :=
  if (image.width ≠ 64) ∨ (image.height ≠ 64 ∧ image.height ≠ 32) then
    .error .INVALID_IMAGE
  else if image.height < 64 then
    .ok .classic
  else
    let allTransparent := !(scanRect.any (fun p => image.alpha p.1 p.2 == 255))
    if allTransparent then .ok .slim else .ok .classic

/-! ## ID allocation (`Generator.makeRandomSkinId`, render.ts:155) -/

/-- `MAX_ID_TRIES` constant of render.ts. -/
def MAX_ID_TRIES : Nat := 10

/-- The parameters of the `optimus-js` encoder instance
(`config.optimus.prime`, `config.optimus.random`; the modular inverse only
participates in decoding). -/
structure OptimusParams where
  prime : Nat
  random : Nat

/-- The `optimus-js` `encode` operation (external library; modelled from the
spec: "serialize via `(prime * rand) XOR salt mod 2^31`", which is the
library's `((n * prime) & MAX_INT) ^ random` with `MAX_INT = 2^31 - 1`). -/
def optimusEncode (p : OptimusParams) (n : Nat) : Nat :=
  ((n * p.prime) % 2 ^ 31) ^^^ p.random

/-- `Generator.makeRandomSkinId`.  `randoms i` is the value produced by the
`random32BitNumber()` call of the `i`-th invocation; `existsId i` tells
whether `Skin.findOne({ id: i })` finds an existing catalog entry. -/
def makeRandomSkinId (p : OptimusParams) (randoms : Nat → Nat) (existsId : Nat → Bool)
    (tryN : Nat) : Except GenError Nat :=
  if h : tryN > MAX_ID_TRIES then
    .error .FAILED_TO_CREATE_ID
  else
    let newId := optimusEncode p (randoms tryN)
    if existsId newId then
      makeRandomSkinId p randoms existsId (tryN + 1)
    else
      .ok newId
termination_by MAX_ID_TRIES + 1 - tryN
decreasing_by simp only [MAX_ID_TRIES] at *; omega

/-- `Generator.makeNewSkinId`: the allocator entry point, starting at try 0. -/
def makeNewSkinId (p : OptimusParams) (randoms : Nat → Nat) (existsId : Nat → Bool) :
    Except GenError Nat :=
  makeRandomSkinId p randoms existsId 0

/-- Characterization of the allocator: it inspects the draws at tries
`0, …, MAX_ID_TRIES` in order, returns the first encoded draw free in the
catalog, and fails with `FAILED_TO_CREATE_ID` when all collide. -/
theorem makeRandomSkinId_char (p : OptimusParams) (randoms : Nat → Nat)
    (existsId : Nat → Bool) (n tryN : Nat) (hn : tryN + n = MAX_ID_TRIES + 1) :
    makeRandomSkinId p randoms existsId tryN =
      match (List.range' tryN n).find?
          (fun i => !existsId (optimusEncode p (randoms i))) with
      | some i => .ok (optimusEncode p (randoms i))
      | none => .error .FAILED_TO_CREATE_ID := by
  induction n generalizing tryN with
  | zero =>
    rw [makeRandomSkinId]
    simp only [List.range'_zero, List.find?_nil]
    have : tryN > MAX_ID_TRIES := by omega
    simp [this]
  | succ m ih =>
    rw [makeRandomSkinId]
    have hle : ¬ tryN > MAX_ID_TRIES := by omega
    simp only [hle, dite_false]
    rw [List.range'_succ, List.find?_cons]
    cases hex : existsId (optimusEncode p (randoms tryN)) with
    | true =>
      simp only [hex, Bool.not_true, if_true]
      rw [ih (tryN + 1) (by omega)]
    | false =>
      simp [hex]

/-- The allocator characterization at the entry point `makeNewSkinId`. -/
theorem makeNewSkinId_char (p : OptimusParams) (randoms : Nat → Nat)
    (existsId : Nat → Bool) :
    makeNewSkinId p randoms existsId =
      match (List.range (MAX_ID_TRIES + 1)).find?
          (fun i => !existsId (optimusEncode p (randoms i))) with
      | some i => .ok (optimusEncode p (randoms i))
      | none => .error .FAILED_TO_CREATE_ID := by
  rw [makeNewSkinId, makeRandomSkinId_char p randoms existsId (MAX_ID_TRIES + 1) 0 rfl,
    List.range_eq_range']

/-! ## Accounts and the scheduler (`database/schemas/Account`, render.ts) -/

/-- The account document fields the engine reads or writes.  Fields that
the `findUsable` query guards with an `$exists`/null alternative, or that
the schema leaves optional, are `Option`s; timestamps are epoch seconds. -/
structure Account where
  id : Nat
  enabled : Bool
  requestServer : Option String
  lastRequestServer : Option String
  lastSelected : Option Int
  lastUsed : Option Int
  forcedTimeoutAt : Option Int
  errorCounter : Int
  successCounter : Int
  totalErrorCounter : Int
  totalSuccessCounter : Int
  timeAdded : Int
  sameTextureCounter : Int
  clientToken : Option String
  accessToken : Option String
deriving DecidableEq, Repr

/-- Mongo semantics of the `$or` clauses of `findUsable`: the field is
absent (`$exists: false` / null) or strictly below the bound. -/
def absentOrLt (v : Option Int) (bound : Int) : Bool :=
  match v with
  | none => true
  | some x => decide (x < bound)

/-- The `findUsable` filter document (`AccountSchema.statics.findUsable`):
enabled, not in the locked set, `requestServer` absent/null or in
`["default", config.server]`, `lastSelected` absent or `< time - 50`,
`lastUsed` absent or `< time - 100`, `forcedTimeoutAt` absent or
`< time - 500`, `errorCounter < errorThreshold`, `timeAdded < time - 60`. -/
def accountMatchesUsableQuery (server : String) (errorThreshold time : Int)
    (locked : List Nat) (a : Account) : Bool :=
  a.enabled &&
  !(locked.contains a.id) &&
  (match a.requestServer with
   | none => true
   | some s => decide (s = "default" ∨ s = server)) &&
  absentOrLt a.lastSelected (time - 50) &&
  absentOrLt a.lastUsed (time - 100) &&
  absentOrLt a.forcedTimeoutAt (time - 500) &&
  decide (a.errorCounter < errorThreshold) &&
  decide (a.timeAdded < time - 60)

/-- Mongo ascending comparison on a possibly-absent numeric field: an
absent value sorts before every number. -/
def mongoOptLe (a b : Option Int) : Bool :=
  match a, b with
  | none, _ => true
  | some _, none => false
  | some x, some y => decide (x ≤ y)

/-- The `findUsable` sort order:
`{ lastUsed: 1, lastSelected: 1, sameTextureCounter: 1 }` (all ascending,
lexicographic). -/
def accountSortLe (a b : Account) : Bool :=
  if a.lastUsed ≠ b.lastUsed then mongoOptLe a.lastUsed b.lastUsed
  else if a.lastSelected ≠ b.lastSelected then mongoOptLe a.lastSelected b.lastSelected
  else decide (a.sameTextureCounter ≤ b.sameTextureCounter)

/-- `findOne` with a sort: the first element of the sorted result list,
i.e. a minimal element under the order, the earliest listed on ties. -/
def findOneSorted (le : α → α → Bool) : List α → Option α
  | [] => none
  | x :: xs => some (xs.foldl (fun acc y => if le acc y then acc else y) x)

theorem foldl_min_mem (le : α → α → Bool) (xs : List α) (x : α) :
    xs.foldl (fun acc y => if le acc y then acc else y) x ∈ x :: xs := by
  induction xs generalizing x with
  | nil => simp [List.foldl]
  | cons y ys ih =>
    simp only [List.foldl_cons]
    rcases h : le x y with _ | _
    · simp only [h, Bool.false_eq_true, if_false]
      have := ih y
      simp only [List.mem_cons] at this ⊢
      tauto
    · simp only [h, if_true]
      have := ih x
      simp only [List.mem_cons] at this ⊢
      tauto

theorem findOneSorted_mem (le : α → α → Bool) (xs : List α) (a : α)
    (h : findOneSorted le xs = some a) : a ∈ xs := by
  cases xs with
  | nil => simp [findOneSorted] at h
  | cons x ys =>
    simp only [findOneSorted, Option.some.injEq] at h
    have := foldl_min_mem le ys x
    rw [h] at this
    exact this

/-- The database query part of `findUsable`: filter by
`accountMatchesUsableQuery`, order by `accountSortLe`, take the first. -/
def findUsableQuery (server : String) (errorThreshold time : Int)
    (locked : List Nat) (accounts : List Account) : Option Account :=
  findOneSorted accountSortLe
    (accounts.filter (accountMatchesUsableQuery server errorThreshold time locked))

/-- The post-query mutation of `findUsable` on the selected account:
`lastSelected := time`, and counters defaulted to 0 when unset (the
counters are plain integers here, so the defaulting is the identity). -/
def selectAccount (time : Int) (a : Account) : Account :=
  { a with lastSelected := some time }

/-- `AccountSchema.methods.updateRequestServer`: remembers the previous
`requestServer` in `lastRequestServer` when it was set and changes, then
overwrites `requestServer`. -/
def updateRequestServer (a : Account) (newRequestServer : Option String) : Account :=
  if a.requestServer ≠ none ∧ a.requestServer ≠ newRequestServer then
    { a with lastRequestServer := a.requestServer, requestServer := newRequestServer }
  else
    { a with requestServer := newRequestServer }

/-- `Generator.handleGenerateSuccess`: reset `errorCounter`, bump
`successCounter` and `totalSuccessCounter`. -/
def handleGenerateSuccess (a : Account) : Account :=
  { a with
    errorCounter := 0
    successCounter := a.successCounter + 1
    totalSuccessCounter := a.totalSuccessCounter + 1 }

/-- `Generator.handleGenerateError`: reset `successCounter`, bump
`errorCounter` and `totalErrorCounter`; when the error is an
`AuthenticationError`, also `forcedTimeoutAt := now` and clear the
`requestServer` binding. -/
def handleGenerateError (isAuthError : Bool) (now : Int) (a : Account) : Account :=
  if isAuthError then
    updateRequestServer
      { a with
        successCounter := 0
        errorCounter := a.errorCounter + 1
        totalErrorCounter := a.totalErrorCounter + 1
        forcedTimeoutAt := some now } none
  else
    { a with
      successCounter := 0
      errorCounter := a.errorCounter + 1
      totalErrorCounter := a.totalErrorCounter + 1 }

/-! ## Authentication (`generator/authentication.js`) -/

/-- Upstream calls issued by `authenticate`, in order. -/
inductive AuthCall where
  | validateCall
  | refreshCall
  | loginCall
deriving DecidableEq, Repr

/-- Oracle for the upstream auth endpoints during one `authenticate` run:
the transport error flag, status code and body-error flag of the
`validate` response, whether `refresh` failed (transport error or error
body), the tokens the upstream issues, and the uuid drawn for a fresh
client token. -/
structure AuthEnv where
  validateErr : Bool
  validateStatus : Nat
  validateBodyError : Bool
  refreshErr : Bool
  refreshAccessToken : String
  loginErr : Bool
  loginAccessToken : String
  freshClientToken : String
deriving DecidableEq, Repr

/-- The login path of `authenticate` (`loginCallback`): generate a client
token when missing, POST `authenticate`; on a transport error or an error
body the callback reports the error, otherwise the account stores the new
access token. -/
def authLogin (env : AuthEnv) (a : Account) : Except Unit Account :=
  let a1 :=
    if a.clientToken = none then { a with clientToken := some env.freshClientToken }
    else a
  if env.loginErr then .error ()
  else .ok { a1 with accessToken := some env.loginAccessToken }

/-- `authenticate` of `generator/authentication.js`: with both a client
token and an access token present it POSTs `validate`; a transport error,
a status outside `[200, 230]` or an error body sends it to `refresh`,
whose failure nulls the access token and falls back to login; without the
two tokens it logs in directly.  The second component lists the upstream
calls made, in order. -/
def authenticate (env : AuthEnv) (a : Account) : Except Unit Account × List AuthCall :=
  if a.clientToken.isSome ∧ a.accessToken.isSome then
    if env.validateErr ∨ env.validateStatus < 200 ∨ env.validateStatus > 230 ∨
        env.validateBodyError then
      -- refresh()
      if env.refreshErr then
        (authLogin env { a with accessToken := none },
          [.validateCall, .refreshCall, .loginCall])
      else
        (.ok { a with accessToken := some env.refreshAccessToken },
          [.validateCall, .refreshCall])
    else
      (.ok a, [.validateCall])
  else
    (authLogin env a, [.loginCall])

/-! ## The skin catalog and the pipeline state -/

/-- The skin document fields written by `Generator.saveSkin` and read by
the duplicate probes (`SkinSchema`). -/
structure SkinDoc where
  id : Nat
  hash : String
  name : String
  uuid : String
  model : String
  visibility : Int
  value : String
  signature : String
  url : String
  minecraftTextureHash : Option String
  textureHash : String
  time : Int
  generateDuration : Int
  account : Option Nat
  type : GenerateType
  duplicate : Int
  views : Int
  via : String
  ua : String
deriving DecidableEq, Repr

/-- The `GenerateOptions` the HTTP layer delivers: user-provided name,
model (variant) and visibility. -/
structure GenerateOptions where
  name : String
  model : SkinModel
  visibility : Int
deriving DecidableEq, Repr

/-- The `ClientInfo` provenance record. -/
structure ClientInfo where
  via : String
  userAgent : String
deriving DecidableEq, Repr

/-- `SkinMeta` (types/SkinData.ts). -/
structure SkinMeta where
  uuid : String
  imageHash : String
  mojangHash : String
deriving DecidableEq, Repr

/-- `Texture` (types/SkinData.ts): one texture entry of the decoded value. -/
structure TextureV where
  url : String
deriving DecidableEq, Repr

/-- `Textures` (types/SkinData.ts): the `SKIN` slot (`CAPE` is unused by
the engine). -/
structure TexturesV where
  SKIN : Option TextureV
deriving DecidableEq, Repr

/-- `SkinValue` (types/SkinData.ts): the base64-decoded profile value. -/
structure SkinValueV where
  textures : TexturesV
deriving DecidableEq, Repr

/-- `SkinData` (types/SkinData.ts): the signed texture descriptor property
plus the decoded value attached by `Generator.decodeValue`. -/
structure SkinDataV where
  value : String
  signature : String
  decodedValue : Option SkinValueV
deriving DecidableEq, Repr

/-- The three temp-file roots (`generator/Temp.ts`). -/
inductive TempDir where
  | urlDir
  | uplDir
  | mojDir
deriving DecidableEq, Repr

/-- Observable actions of one engine run: metric emissions, account
locking, the upstream skin-change POST, catalog insertion, and temp-file
handle lifecycle. -/
inductive Event where
  | duplicateMetric (source : DuplicateSource) (type : GenerateType)
  | newMetric
  | acquireAccount (id : Nat)
  | upstreamSkinChange
  | insertSkin (skin : SkinDoc)
  | tempAcquire (dir : TempDir)
  | tempRelease (dir : TempDir)
deriving DecidableEq, Repr

/-- Mutable world state threaded through a run: the two collections, the
process-wide locked-account set, and the (reverse-chronological) event
trace. -/
structure GenState where
  catalog : List SkinDoc
  accounts : List Account
  locked : List Nat
  events : List Event
deriving DecidableEq, Repr

/-- Append an event to the trace (most recent first). -/
def emit (e : Event) (st : GenState) : GenState :=
  { st with events := e :: st.events }

/-- Persist a mutated skin document (`existingSkin.save()`): replace the
document with the same `id`. -/
def saveSkinDocUpdate (s : SkinDoc) (catalog : List SkinDoc) : List SkinDoc :=
  catalog.map (fun x => if x.id = s.id then s else x)

/-- Persist a mutated account document (`account.save()`). -/
def saveAccountDoc (a : Account) (st : GenState) : GenState :=
  { st with accounts := st.accounts.map (fun x => if x.id = a.id then a else x) }

/-- `existingSkin.duplicate++`. -/
def incDuplicate (s : SkinDoc) : SkinDoc :=
  { s with duplicate := s.duplicate + 1 }

/-- `ALLOWED_IMAGE_TYPES` constant of render.ts. -/
def ALLOWED_IMAGE_TYPES : List String := ["image/png"]

/-- `MAX_IMAGE_SIZE` constant of render.ts (20 KB). -/
def MAX_IMAGE_SIZE : Nat := 20000

/-- A HEAD-follow response as the engine reads it: `responseUrl` from the
request object, and the `content-type` / `content-length` headers. -/
structure FollowResp where
  responseUrl : Option String
  contentType : Option String
  contentLength : Option Nat
deriving DecidableEq, Repr

/-- Outcome of the upstream `POST /minecraft/profile/skins`: success, an
error with a response attached (`err.response`, mapped to
`SKIN_CHANGE_FAILED`), or an error without one (rethrown as-is). -/
inductive UpstreamResult where
  | ok
  | errResponse
  | errNoResponse
deriving DecidableEq, Repr

/-- Environment of one generation request: configuration, the clock, and
the responses of every external collaborator the engine consults.  The
regular-expression engine is abstracted as the oracles `mineskinMatch`
(the numeric capture of `MINESKIN_URL_REGEX` on the resolved url, when it
matches) and `textureMatch` (full match and hash capture of
`MINECRAFT_TEXTURE_REGEX`); the perceptual hasher as `imgHash` /
`mojangHash`; `uuid` translation as `uuidsLong` / `uuidsShort`. -/
structure GenEnv where
  server : String
  errorThreshold : Int
  time : Int
  optimus : OptimusParams
  randoms : Nat → Nat
  auth : AuthEnv
  followResponse : Option FollowResp
  mineskinMatch : Option Nat
  textureMatch : Option (String × String)
  downloadOk : Bool
  copyOk : Bool
  fileSize : Nat
  fileMime : Option String
  image : JimpImage
  imgHash : String
  upstream : UpstreamResult
  skinDataResp : Option SkinDataV
  decodedValue : Option SkinValueV
  mojangDownloadOk : Bool
  mojangHash : String
  metaUuid : String
  uuidsLong : String
  uuidsShort : String
  minecraftTextureHashOracle : Option String

/-- `String.startsWith`, modelled over the character list so that it
evaluates inside the kernel (the built-in operates on opaque byte
positions). -/
def strStartsWith (s p : String) : Bool := p.data.isPrefixOf s.data

/-! ## Duplicate probes (render.ts:241-351) -/

/-- `Generator.findDuplicateFromUrl`: guard on the url shape; on a
MineSkin-url regex match, look up by catalog id filtered by
`(name, model, visibility)`; otherwise on a texture-url regex match, look
up by texture url or texture hash with the same filter; increment and
persist the duplicate counter on a hit. -/
def findDuplicateFromUrl (env : GenEnv) (url : String) (options : GenerateOptions)
    (type : GenerateType) (st : GenState) : Option SkinDoc × GenState :=
  if url = "" ∨ url.length < 8 ∨ ¬strStartsWith url "http" then (none, st)
  else
    match env.mineskinMatch with
    | some mineskinId =>
      match st.catalog.find? (fun s =>
          s.id == mineskinId && s.name == options.name &&
          s.model == options.model.str && s.visibility == options.visibility) with
      | some existingSkin =>
        let updated := incDuplicate existingSkin
        (some updated,
          emit (.duplicateMetric .mineskinUrl type)
            { st with catalog := saveSkinDocUpdate updated st.catalog })
      | none => (none, st)
    | none =>
      match env.textureMatch with
      | some tm =>
        match st.catalog.find? (fun s =>
            (s.url == tm.1 || s.minecraftTextureHash == some tm.2) &&
            s.name == options.name && s.model == options.model.str &&
            s.visibility == options.visibility) with
        | some existingSkin =>
          let updated := incDuplicate existingSkin
          (some updated,
            emit (.duplicateMetric .textureUrl type)
              { st with catalog := saveSkinDocUpdate updated st.catalog })
        | none => (none, st)
      | none => (none, st)

/-- `Generator.findDuplicateFromImageHash`: guard on the hash length, then
look up by `hash` filtered by
`{ name: options.name, model: options.name, visibility: options.visibility }`
— note that the source compares the stored `model` against the request's
`name`, not its model. -/
def findDuplicateFromImageHash (hash : String) (options : GenerateOptions)
    (type : GenerateType) (st : GenState) : Option SkinDoc × GenState :=
  if hash = "" ∨ hash.length < 30 then (none, st)
  else
    match st.catalog.find? (fun s =>
        s.hash == hash && s.name == options.name &&
        s.model == options.name && s.visibility == options.visibility) with
    | some existingSkin =>
      let updated := incDuplicate existingSkin
      (some updated,
        emit (.duplicateMetric .imageHash type)
          { st with catalog := saveSkinDocUpdate updated st.catalog })
    | none => (none, st)

/-- `Generator.findDuplicateFromUuid`: guard on the uuid length, then look
up by `uuid` filtered by
`{ name: options.name, model: options.name, visibility: options.visibility }`
— the same `model: options.name` comparison as the hash probe. -/
def findDuplicateFromUuid (uuidStr : String) (options : GenerateOptions)
    (type : GenerateType) (st : GenState) : Option SkinDoc × GenState :=
  if uuidStr = "" ∨ uuidStr.length < 34 then (none, st)
  else
    match st.catalog.find? (fun s =>
        s.uuid == uuidStr && s.name == options.name &&
        s.model == options.name && s.visibility == options.visibility) with
    | some existingSkin =>
      let updated := incDuplicate existingSkin
      (some updated,
        emit (.duplicateMetric .userUuid type)
          { st with catalog := saveSkinDocUpdate updated st.catalog })
    | none => (none, st)

/-! ## Account acquisition, skin data, and validation stages -/

/-- The stateful part of `AccountSchema.statics.findUsable`: run the
eligibility query, and on a hit lock the selected id
(`Caching.lockSelectedAccount`), stamp `lastSelected := now` and persist. -/
def findUsable (env : GenEnv) (st : GenState) : Option Account × GenState :=
  match findUsableQuery env.server env.errorThreshold env.time st.locked st.accounts with
  | none => (none, st)
  | some account =>
    let st1 := { st with
      locked := account.id :: st.locked
      events := Event.acquireAccount account.id :: st.events }
    let selected := selectAccount env.time account
    (some selected, saveAccountDoc selected st1)

/-- `Generator.getAndAuthenticateAccount`: `findUsable`, authenticate (an
authentication failure throws before the caller's `account` variable is
assigned), then stamp `lastUsed := now` and bind the request server —
these two mutations stay in memory until a release handler persists them. -/
def getAndAuthenticateAccount (env : GenEnv) (st : GenState) :
    Except RunError Account × GenState :=
  match findUsable env st with
  | (none, st1) => (.error (.gen .NO_ACCOUNT_AVAILABLE), st1)
  | (some account, st1) =>
    match (authenticate env.auth account).1 with
    | .error _ => (.error .authError, st1)
    | .ok a1 =>
      let st2 := saveAccountDoc a1 st1
      let a2 := updateRequestServer { a1 with lastUsed := some env.time } (some env.server)
      (.ok a2, st2)

/-- `Generator.getSkinData`: fetch the profile property, reject a missing
or valueless response, decode it and reject a decoded value without a
`SKIN` texture. -/
def getSkinData (env : GenEnv) : Except RunError SkinDataV :=
  match env.skinDataResp with
  | none => .error (.gen .INVALID_SKIN_DATA)
  | some data =>
    if data.value = "" then .error (.gen .INVALID_SKIN_DATA)
    else
      match env.decodedValue with
      | none => .error (.gen .INVALID_SKIN_DATA)
      | some dv =>
        match dv.textures.SKIN with
        | none => .error (.gen .INVALID_SKIN_DATA)
        | some _ => .ok { data with decodedValue := some dv }

/-- `Generator.getMojangHash`: acquire a temp file in the upstream-fetch
root, download the texture and hash it, releasing the handle in a
`finally`. -/
def getMojangHash (env : GenEnv) (st : GenState) : Except RunError String × GenState :=
  let st1 := emit (.tempAcquire .mojDir) st
  if env.mojangDownloadOk then
    (.ok env.mojangHash, emit (.tempRelease .mojDir) st1)
  else
    (.error .other, emit (.tempRelease .mojDir) st1)

/-- Outcome of `Generator.validateTempFile` on the non-throwing path:
either a duplicate hit from the hash probe, or a validated buffer with its
perceptual hash and size. -/
inductive TempFileValidation where
  | dup (d : SkinDoc)
  | valid (hash : String) (size : Nat)
deriving DecidableEq, Repr

/-- `Generator.validateTempFile`: size guard, dimension guard
(`image-size`), file-type guard, variant inference via
`validateImageData` (overwriting an `unknown` request model with the
detected one), then the perceptual-hash duplicate probe. -/
def validateTempFile (env : GenEnv) (options : GenerateOptions) (type : GenerateType)
    (st : GenState) : Except RunError TempFileValidation × GenerateOptions × GenState :=
  let size := env.fileSize
  if size = 0 ∨ size < 100 ∨ size > MAX_IMAGE_SIZE then
    (.error (.gen .INVALID_IMAGE), options, st)
  else if env.image.width ≠ 64 ∨ (env.image.height ≠ 64 ∧ env.image.height ≠ 32) then
    (.error (.gen .INVALID_IMAGE), options, st)
  else
    match env.fileMime with
    | none => (.error (.gen .INVALID_IMAGE), options, st)
    | some mime =>
      if ¬strStartsWith mime "image" ∨ mime ∉ ALLOWED_IMAGE_TYPES then
        (.error (.gen .INVALID_IMAGE), options, st)
      else
        match validateImageData env.image with
        | .error e => (.error (.gen e), options, st)
        | .ok detected =>
          let options1 :=
            if options.model = SkinModel.unknown ∧ detected ≠ SkinModel.unknown then
              { options with model := detected }
            else options
          match findDuplicateFromImageHash env.imgHash options1 type st with
          | (some hashDuplicate, st1) => (.ok (.dup hashDuplicate), options1, st1)
          | (none, st1) => (.ok (.valid env.imgHash size), options1, st1)

/-! ## The orchestrator (render.ts:355-600) -/

/-- The `GenerateResult` record of render.ts. -/
structure GenerateResult where
  duplicate : Option SkinDoc := none
  data : Option SkinDataV := none
  meta : Option SkinMeta := none
  account : Option Account := none
deriving DecidableEq, Repr

/-- `e instanceof AuthenticationError`. -/
def isAuthRunError : RunError → Bool
  | .authError => true
  | _ => false

/-- The shared tail of the URL and upload flows after a validated temp
file: acquire and authenticate an account, POST the upstream skin change,
fetch the resulting skin data, compute the Mojang hash, and record the
success on the account.  Returns the result together with the in-memory
account document the `catch` clause of the caller would see. -/
def generateTail (env : GenEnv) (imgHash : String) (_options1 : GenerateOptions)
    (st : GenState) : Except RunError GenerateResult × Option Account × GenState :=
  match getAndAuthenticateAccount env st with
  | (.error e, st1) => (.error e, none, st1)
  | (.ok account, st1) =>
    let st2 := emit .upstreamSkinChange st1
    match env.upstream with
    | .errResponse => (.error (.gen .SKIN_CHANGE_FAILED), some account, st2)
    | .errNoResponse => (.error .other, some account, st2)
    | .ok =>
      match getSkinData env with
      | .error e => (.error e, some account, st2)
      | .ok data =>
        match getMojangHash env st2 with
        | (.error e, st3) => (.error e, some account, st3)
        | (.ok mojangHash, st3) =>
          let account1 := handleGenerateSuccess account
          let st4 := saveAccountDoc account1 st3
          (.ok { data := some data, account := some account1,
                 meta := some ⟨env.metaUuid, imgHash, mojangHash⟩ },
            some account1, st4)

/-- The `try` block of `Generator.generateFromUrl`: follow the url, probe
the resolved url for duplicates, check the response headers, download to a
temp file, validate (including the hash probe), and run the generation
tail.  The boolean reports whether the temp file was acquired. -/
def generateFromUrlTry (env : GenEnv) (options : GenerateOptions) (st : GenState) :
    Except RunError GenerateResult × Bool × Option Account × GenerateOptions × GenState :=
  match env.followResponse with
  | none => (.error (.gen .INVALID_IMAGE_URL), false, none, options, st)
  | some followResponse =>
    match followResponse.responseUrl with
    | none => (.error (.gen .INVALID_IMAGE_URL), false, none, options, st)
    | some url =>
      match findDuplicateFromUrl env url options .url st with
      | (some urlDuplicate, st1) =>
        (.ok { duplicate := some urlDuplicate }, false, none, options, st1)
      | (none, st1) =>
        match followResponse.contentType with
        | none => (.error (.gen .INVALID_IMAGE), false, none, options, st1)
        | some contentType =>
          if ¬strStartsWith contentType "image" ∨ contentType ∉ ALLOWED_IMAGE_TYPES then
            (.error (.gen .INVALID_IMAGE), false, none, options, st1)
          else
            match followResponse.contentLength with
            | none => (.error (.gen .INVALID_IMAGE), false, none, options, st1)
            | some size =>
              if size = 0 ∨ size < 100 ∨ size > MAX_IMAGE_SIZE then
                (.error (.gen .INVALID_IMAGE), false, none, options, st1)
              else
                let st2 := emit (.tempAcquire .urlDir) st1
                if ¬env.downloadOk then
                  (.error (.gen .INVALID_IMAGE), true, none, options, st2)
                else
                  match validateTempFile env options .url st2 with
                  | (.error e, options1, st3) => (.error e, true, none, options1, st3)
                  | (.ok (.dup d), options1, st3) =>
                    (.ok { duplicate := some d }, true, none, options1, st3)
                  | (.ok (.valid imgHash _), options1, st3) =>
                    match generateTail env imgHash options1 st3 with
                    | (r, acct, st4) => (r, true, acct, options1, st4)

/-- The `catch`/`finally` wrapper shared by the URL and upload flows: on an
error with an acquired account, run `handleGenerateError` (auth errors
additionally park the account) and persist; then release the temp file
when one was acquired. -/
def catchAndRelease (env : GenEnv) (dir : TempDir)
    (r : Except RunError GenerateResult) (tempAcquired : Bool)
    (account : Option Account) (st : GenState) : GenState :=
  let st1 :=
    match r with
    | .error e =>
      match account with
      | some a => saveAccountDoc (handleGenerateError (isAuthRunError e) env.time a) st
      | none => st
    | .ok _ => st
  if tempAcquired then emit (.tempRelease dir) st1 else st1

/-- `Generator.generateFromUrl` = the `try` body wrapped in catch/finally. -/
def generateFromUrl (env : GenEnv) (options : GenerateOptions) (st : GenState) :
    Except RunError GenerateResult × GenerateOptions × GenState :=
  match generateFromUrlTry env options st with
  | (r, tempAcquired, account, options1, st1) =>
    (r, options1, catchAndRelease env .urlDir r tempAcquired account st1)

/-- The `try` block of `Generator.generateFromUpload`: copy the upload
into a temp file, validate (including the hash probe), and run the
generation tail. -/
def generateFromUploadTry (env : GenEnv) (options : GenerateOptions) (st : GenState) :
    Except RunError GenerateResult × Bool × Option Account × GenerateOptions × GenState :=
  let st1 := emit (.tempAcquire .uplDir) st
  if ¬env.copyOk then
    (.error (.gen .INVALID_IMAGE), true, none, options, st1)
  else
    match validateTempFile env options .upload st1 with
    | (.error e, options1, st2) => (.error e, true, none, options1, st2)
    | (.ok (.dup d), options1, st2) =>
      (.ok { duplicate := some d }, true, none, options1, st2)
    | (.ok (.valid imgHash _), options1, st2) =>
      match generateTail env imgHash options1 st2 with
      | (r, acct, st3) => (r, true, acct, options1, st3)

/-- `Generator.generateFromUpload` = the `try` body wrapped in
catch/finally. -/
def generateFromUpload (env : GenEnv) (options : GenerateOptions) (st : GenState) :
    Except RunError GenerateResult × GenerateOptions × GenState :=
  match generateFromUploadTry env options st with
  | (r, tempAcquired, account, options1, st1) =>
    (r, options1, catchAndRelease env .uplDir r tempAcquired account st1)

/-- `Generator.generateFromUser`: translate the input uuid, probe the long
form for duplicates, and on novelty fetch the current skin data of that
user and hash its texture; no account and no upstream change are involved,
and the flow has no catch/finally of its own. -/
def generateFromUser (env : GenEnv) (options : GenerateOptions) (st : GenState) :
    Except RunError GenerateResult × GenState :=
  match findDuplicateFromUuid env.uuidsLong options .user st with
  | (some uuidDuplicate, st1) => (.ok { duplicate := some uuidDuplicate }, st1)
  | (none, st1) =>
    match getSkinData env with
    | .error e => (.error e, st1)
    | .ok data =>
      match getMojangHash env st1 with
      | (.error e, st2) => (.error e, st2)
      | (.ok mojangHash, st2) =>
        (.ok { data := some data,
               meta := some ⟨env.uuidsLong, mojangHash, mojangHash⟩ }, st2)

/-! ## Persisting (`Generator.saveSkin`, `getDuplicateOrSaved`) -/

/-- `Generator.saveSkin`: allocate a fresh id against the current catalog,
assemble the document from the generation result and the (possibly
variant-overwritten) options, and insert it.  The new document always
carries `duplicate = 0` and `views = 0`. -/
def saveSkin (env : GenEnv) (result : GenerateResult) (options : GenerateOptions)
    (client : ClientInfo) (type : GenerateType) (start : Int) (st : GenState) :
    Except RunError SkinDoc × GenState :=
  match makeNewSkinId env.optimus env.randoms
      (fun i => (st.catalog.find? (fun s => s.id == i)).isSome) with
  | .error e => (.error (.gen e), st)
  | .ok newId =>
    match result.data with
    | none => (.error .other, st)
    | some data =>
      match data.decodedValue with
      | none => (.error .other, st)
      | some dv =>
        match dv.textures.SKIN with
        | none => (.error .other, st)
        | some texture =>
          let skin : SkinDoc := {
            id := newId
            hash := (result.meta.map SkinMeta.imageHash).getD ""
            uuid := (result.meta.map SkinMeta.uuid).getD ""
            name := options.name
            model := options.model.str
            visibility := options.visibility
            value := data.value
            signature := data.signature
            url := texture.url
            minecraftTextureHash := env.minecraftTextureHashOracle
            textureHash := (result.meta.map SkinMeta.mojangHash).getD ""
            time := env.time
            generateDuration := env.time - start
            account := result.account.map Account.id
            type := type
            duplicate := 0
            views := 0
            via := client.via
            ua := client.userAgent }
          (.ok skin, emit (.insertSkin skin) { st with catalog := st.catalog ++ [skin] })

/-- `Generator.getDuplicateOrSaved`: a duplicate result is returned as-is;
a novel result bumps the new-skin metric and is persisted; a result with
neither is the "shouldn't ever get here" error. -/
def getDuplicateOrSaved (env : GenEnv) (result : GenerateResult)
    (options : GenerateOptions) (client : ClientInfo) (type : GenerateType)
    (start : Int) (st : GenState) : Except RunError SkinDoc × GenState :=
  match result.duplicate with
  | some d => (.ok d, st)
  | none =>
    match result.data with
    | some _ => saveSkin env result options client type start (emit .newMetric st)
    | none => (.error .other, st)

/-- `Generator.generateFromUrlAndSave`. -/
def generateFromUrlAndSave (env : GenEnv) (options : GenerateOptions)
    (client : ClientInfo) (st : GenState) : Except RunError SkinDoc × GenState :=
  match generateFromUrl env options st with
  | (.error e, _, st1) => (.error e, st1)
  | (.ok result, options1, st1) =>
    getDuplicateOrSaved env result options1 client .url env.time st1

/-- `Generator.generateFromUploadAndSave`. -/
def generateFromUploadAndSave (env : GenEnv) (options : GenerateOptions)
    (client : ClientInfo) (st : GenState) : Except RunError SkinDoc × GenState :=
  match generateFromUpload env options st with
  | (.error e, _, st1) => (.error e, st1)
  | (.ok result, options1, st1) =>
    getDuplicateOrSaved env result options1 client .upload env.time st1

/-- `Generator.generateFromUserAndSave`. -/
def generateFromUserAndSave (env : GenEnv) (options : GenerateOptions)
    (client : ClientInfo) (st : GenState) : Except RunError SkinDoc × GenState :=
  match generateFromUser env options st with
  | (.error e, st1) => (.error e, st1)
  | (.ok result, st1) =>
    getDuplicateOrSaved env result options client .user env.time st1

/-! ## Claim C1: variant inference -/

/-- A 64×64 image whose inspected rectangle holds one fully opaque pixel
(alpha 255 at (54, 20)-adjacent position (55, 20) kept at 128) and opaque
pixels elsewhere: mixed opacity inside the rectangle. -/
def c1Image : JimpImage :=
  { width := 64, height := 64
    alpha := fun x y => if x = 55 ∧ y = 20 then 128 else 255 }

/-- C1 counterexample: the claim says a 64×64 image with at least one
not-fully-opaque pixel in the rectangle is classified `slim`; `c1Image`
has such a pixel (alpha 128 at (55, 20)) yet `validateImageData` returns
`classic`, because another pixel of the rectangle is fully opaque. -/
theorem c1_counterexample :
    (55, 20) ∈ scanRect ∧ c1Image.alpha 55 20 ≠ 255 ∧
    validateImageData c1Image ≠ .ok .slim ∧
    validateImageData c1Image = .ok .classic := by
  decide

/-- C1 (amended): for a 64×64 validated image, variant inference returns
`classic` iff at least one pixel of the rectangle `x ∈ [54,56), y ∈ [20,32)`
has alpha exactly 255 (in particular when every pixel does), and `slim`
iff no pixel of that rectangle is fully opaque. -/
theorem c1_variant_inference (image : JimpImage)
    (hw : image.width = 64) (hh : image.height = 64) :
    (validateImageData image = .ok .classic ↔
      ∃ p ∈ scanRect, image.alpha p.1 p.2 = 255) ∧
    (validateImageData image = .ok .slim ↔
      ∀ p ∈ scanRect, image.alpha p.1 p.2 ≠ 255) := by
  have hvi : validateImageData image =
      if scanRect.any (fun p => image.alpha p.1 p.2 == 255) then Except.ok SkinModel.classic
      else Except.ok SkinModel.slim := by
    unfold validateImageData
    rw [hw, hh]
    rw [if_neg (by omega : ¬((64:Nat) ≠ 64 ∨ ((64:Nat) ≠ 64 ∧ (64:Nat) ≠ 32)))]
    rw [if_neg (by omega : ¬((64:Nat) < 64))]
    cases h : scanRect.any (fun p => image.alpha p.1 p.2 == 255) <;> simp [h]
  rw [hvi]
  cases h : scanRect.any (fun p => image.alpha p.1 p.2 == 255) with
  | true =>
    rw [List.any_eq_true] at h
    obtain ⟨p, hp, hb⟩ := h
    rw [beq_iff_eq] at hb
    rw [if_pos rfl]
    constructor
    · exact ⟨fun _ => ⟨p, hp, hb⟩, fun _ => rfl⟩
    · constructor
      · intro hcon
        exact SkinModel.noConfusion (Except.ok.inj hcon)
      · intro hall
        exact absurd hb (hall p hp)
  | false =>
    rw [List.any_eq_false] at h
    rw [if_neg (by simp)]
    constructor
    · constructor
      · intro hcon
        exact SkinModel.noConfusion (Except.ok.inj hcon)
      · rintro ⟨p, hp, hb⟩
        exact absurd (beq_iff_eq.mpr hb) (h p hp)
    · exact ⟨fun _ p hp hb => absurd (beq_iff_eq.mpr hb) (h p hp), fun _ => rfl⟩

/-- Witness for C1 at a fully opaque 64×64 image. -/
def c1OpaqueImage : JimpImage :=
  { width := 64, height := 64, alpha := fun _ _ => 255 }

/-- C1 witness: the amended inference theorem applied to a concrete fully
opaque 64×64 image. -/
theorem c1_witness :
    (validateImageData c1OpaqueImage = .ok .classic ↔
      ∃ p ∈ scanRect, c1OpaqueImage.alpha p.1 p.2 = 255) ∧
    (validateImageData c1OpaqueImage = .ok .slim ↔
      ∀ p ∈ scanRect, c1OpaqueImage.alpha p.1 p.2 ≠ 255) :=
  c1_variant_inference c1OpaqueImage rfl rfl

/-! ## Claim C2: the duplicate-probe filter tuple -/

/-- A perceptual hash of the required length (32 hex chars). -/
def c2Hash : String := "0123456789abcdef0123456789abcdef"

/-- A long-form user uuid (36 chars). -/
def c2Uuid : String := "11111111-2222-3333-4444-555555555555"

/-- A stored skin whose `name` and `model` are both the string "slim". -/
def c2Skin : SkinDoc :=
  { id := 77, hash := c2Hash, name := "slim", uuid := c2Uuid, model := "slim"
    visibility := 0, value := "v", signature := "sg", url := "http://t/x"
    minecraftTextureHash := none, textureHash := "th", time := 0
    generateDuration := 0, account := some 1, type := .upload
    duplicate := 0, views := 0, via := "api", ua := "ua" }

/-- A request whose name is "slim" but whose requested variant is
`classic`. -/
def c2Options : GenerateOptions := { name := "slim", model := .classic, visibility := 0 }

/-- Catalog state holding only `c2Skin`. -/
def c2St : GenState := { catalog := [c2Skin], accounts := [], locked := [], events := [] }

/-- C2 failing input, evaluated: the hash probe and the uuid probe both
classify `c2Skin` as a duplicate of a request whose variant (`classic`,
stored as "steve") differs from the stored variant ("slim"), because the
source filters on `model: options.name`.  This contradicts the claim that
a probe matches only when the stored `(name, variant, visibility)` equals
the request's. -/
theorem c2_model_name_filter_bug :
    (findDuplicateFromImageHash c2Hash c2Options .upload c2St).1 =
      some (incDuplicate c2Skin) ∧
    (findDuplicateFromUuid c2Uuid c2Options .user c2St).1 =
      some (incDuplicate c2Skin) ∧
    c2Skin.model ≠ c2Options.model.str := by
  decide

/-! ## Claim C5: release bookkeeping on the account -/

/-- C5: on release-success `errorCounter := 0` and both success counters
are incremented; on release-failure `successCounter := 0` and both error
counters are incremented; an authentication failure additionally stamps
`forcedTimeoutAt := now` and clears `requestServer`. -/
theorem c5_release_counters (a : Account) (now : Int) (isAuthError : Bool) :
    (handleGenerateSuccess a).errorCounter = 0 ∧
    (handleGenerateSuccess a).successCounter = a.successCounter + 1 ∧
    (handleGenerateSuccess a).totalSuccessCounter = a.totalSuccessCounter + 1 ∧
    (handleGenerateError isAuthError now a).successCounter = 0 ∧
    (handleGenerateError isAuthError now a).errorCounter = a.errorCounter + 1 ∧
    (handleGenerateError isAuthError now a).totalErrorCounter = a.totalErrorCounter + 1 ∧
    (handleGenerateError true now a).forcedTimeoutAt = some now ∧
    (handleGenerateError true now a).requestServer = none := by
  cases isAuthError <;>
    refine ⟨rfl, rfl, rfl, ?_, ?_, ?_, ?_, ?_⟩ <;>
    simp [handleGenerateSuccess, handleGenerateError, updateRequestServer] <;>
    split <;> simp_all

/-! ## Shared concrete sample data for witnesses -/

/-- A fully opaque 64×64 sample image. -/
def sampleImage : JimpImage :=
  { width := 64, height := 64, alpha := fun _ _ => 255 }

/-- A benign authentication environment: `validate` answers 200 with no
error. -/
def sampleAuthEnv : AuthEnv :=
  { validateErr := false, validateStatus := 200, validateBodyError := false
    refreshErr := false, refreshAccessToken := "rt"
    loginErr := false, loginAccessToken := "lt", freshClientToken := "fc" }

/-- A benign generation environment: every external collaborator
cooperates. -/
def sampleEnv : GenEnv :=
  { server := "s1", errorThreshold := 10, time := 1000
    optimus := ⟨3, 5⟩, randoms := fun _ => 0, auth := sampleAuthEnv
    followResponse := some
      { responseUrl := some "http://minesk.in/77"
        contentType := some "image/png", contentLength := some 4096 }
    mineskinMatch := none, textureMatch := none
    downloadOk := true, copyOk := true, fileSize := 4096
    fileMime := some "image/png"
    image := sampleImage, imgHash := "0123456789abcdef0123456789abcdef"
    upstream := .ok
    skinDataResp := some { value := "val", signature := "sig", decodedValue := none }
    decodedValue := some
      { textures := { SKIN := some { url := "http://textures.minecraft.net/texture/deadbeef" } } }
    mojangDownloadOk := true, mojangHash := "fedcba9876543210fedcba9876543210"
    metaUuid := "meta-uuid", uuidsLong := "11111111-2222-3333-4444-555555555555"
    uuidsShort := "11111111222233334444555555555555"
    minecraftTextureHashOracle := some "deadbeef" }

/-! ## Claim C3: the ID allocator -/

/-- C3: the allocator inspects the encoded fresh draws of tries
`0, …, MAX_ID_TRIES` (the initial draw plus at most `MAX_ID_TRIES = 10`
retries) and returns the first one free in the catalog; when every try
collides it raises `FAILED_TO_CREATE_ID`, and `saveSkin` then propagates
the error without inserting anything (the state is unchanged). -/
theorem c3_id_allocator :
    (∀ (p : OptimusParams) (randoms : Nat → Nat) (existsId : Nat → Bool),
      makeNewSkinId p randoms existsId =
        match (List.range (MAX_ID_TRIES + 1)).find?
            (fun i => !existsId (optimusEncode p (randoms i))) with
        | some i => .ok (optimusEncode p (randoms i))
        | none => .error .FAILED_TO_CREATE_ID) ∧
    (∀ (env : GenEnv) (result : GenerateResult) (options : GenerateOptions)
        (client : ClientInfo) (type : GenerateType) (start : Int) (st : GenState)
        (e : GenError),
      makeNewSkinId env.optimus env.randoms
          (fun i => (st.catalog.find? (fun s => s.id == i)).isSome) = .error e →
      saveSkin env result options client type start st = (.error (.gen e), st)) := by
  constructor
  · exact makeNewSkinId_char
  · intro env result options client type start st e h
    unfold saveSkin
    rw [h]

/-- A catalog entry colliding with every encoded draw of the sample
environment (`optimusEncode ⟨3, 5⟩ 0 = 5`). -/
def c3Skin : SkinDoc :=
  { id := 5, hash := "", name := "", uuid := "", model := "", visibility := 0
    value := "", signature := "", url := "", minecraftTextureHash := none
    textureHash := "", time := 0, generateDuration := 0, account := none
    type := .upload, duplicate := 0, views := 0, via := "", ua := "" }

/-- State in which every draw collides. -/
def c3St : GenState := { catalog := [c3Skin], accounts := [], locked := [], events := [] }

/-- Sample generation result/options/client for the C3 witness. -/
def c3Result : GenerateResult := {}

/-- Sample options for the C3 witness. -/
def c3Options : GenerateOptions := { name := "n", model := .classic, visibility := 0 }

/-- Sample client for the C3 witness. -/
def c3Client : ClientInfo := { via := "v", userAgent := "u" }

/-- C3 witness: with a catalog colliding on every draw, the allocator
exhausts its tries and `saveSkin` fails without touching the state. -/
theorem c3_witness :
    makeNewSkinId sampleEnv.optimus sampleEnv.randoms
        (fun i => (c3St.catalog.find? (fun s => s.id == i)).isSome) =
      .error .FAILED_TO_CREATE_ID ∧
    saveSkin sampleEnv c3Result c3Options c3Client .upload 0 c3St =
      (.error (.gen .FAILED_TO_CREATE_ID), c3St) :=
  ⟨(c3_id_allocator.1 _ _ _).trans (by decide),
    c3_id_allocator.2 sampleEnv c3Result c3Options c3Client .upload 0 c3St
      .FAILED_TO_CREATE_ID ((c3_id_allocator.1 _ _ _).trans (by decide))⟩

/-! ## Claim C4: eligibility of the acquired account -/

/-- C4: whenever the `findUsable` query returns an account, that account
is in the pool and satisfies the full eligibility predicate at the moment
of acquire: enabled, not locked, `requestServer` unset or in
`{"default", self}`, `lastSelected < now - 50` (or unset),
`lastUsed < now - 100` (or unset), `forcedTimeoutAt < now - 500` (or
unset), `errorCounter` below the threshold, and `timeAdded < now - 60`. -/
theorem c4_acquired_account_eligible (server : String) (thr time : Int)
    (locked : List Nat) (accounts : List Account) (a : Account)
    (h : findUsableQuery server thr time locked accounts = some a) :
    a ∈ accounts ∧
    a.enabled = true ∧
    a.id ∉ locked ∧
    (a.requestServer = none ∨ a.requestServer = some "default" ∨
      a.requestServer = some server) ∧
    absentOrLt a.lastSelected (time - 50) = true ∧
    absentOrLt a.lastUsed (time - 100) = true ∧
    absentOrLt a.forcedTimeoutAt (time - 500) = true ∧
    a.errorCounter < thr ∧
    a.timeAdded < time - 60 := by
  unfold findUsableQuery at h
  have hmem := findOneSorted_mem _ _ _ h
  rw [List.mem_filter] at hmem
  obtain ⟨hmem, hp⟩ := hmem
  unfold accountMatchesUsableQuery at hp
  simp only [Bool.and_eq_true, Bool.not_eq_true', decide_eq_true_eq] at hp
  obtain ⟨⟨⟨⟨⟨⟨⟨h1, h2⟩, h3⟩, h4⟩, h5⟩, h6⟩, h7⟩, h8⟩ := hp
  refine ⟨hmem, h1, ?_, ?_, h4, h5, h6, h7, h8⟩
  · simpa using h2
  · cases hr : a.requestServer with
    | none => exact Or.inl rfl
    | some s =>
      rw [hr] at h3
      simp only [decide_eq_true_eq] at h3
      cases h3 with
      | inl hd => exact Or.inr (Or.inl (by rw [hd]))
      | inr hs => exact Or.inr (Or.inr (by rw [hs]))

/-- An eligible sample account. -/
def c4Account : Account :=
  { id := 1, enabled := true, requestServer := none, lastRequestServer := none
    lastSelected := none, lastUsed := some 0, forcedTimeoutAt := none
    errorCounter := 0, successCounter := 0, totalErrorCounter := 0
    totalSuccessCounter := 0, timeAdded := 0, sameTextureCounter := 0
    clientToken := some "ct", accessToken := some "at" }

/-- C4 witness: the eligibility theorem applied to a singleton pool the
query selects from. -/
theorem c4_witness :
    findUsableQuery "s1" 10 1000 [] [c4Account] = some c4Account ∧
    (c4Account ∈ [c4Account] ∧
      c4Account.enabled = true ∧
      c4Account.id ∉ ([] : List Nat) ∧
      (c4Account.requestServer = none ∨ c4Account.requestServer = some "default" ∨
        c4Account.requestServer = some "s1") ∧
      absentOrLt c4Account.lastSelected (1000 - 50) = true ∧
      absentOrLt c4Account.lastUsed (1000 - 100) = true ∧
      absentOrLt c4Account.forcedTimeoutAt (1000 - 500) = true ∧
      c4Account.errorCounter < 10 ∧
      c4Account.timeAdded < 1000 - 60) :=
  ⟨by decide,
    c4_acquired_account_eligible "s1" 10 1000 [] [c4Account] c4Account (by decide)⟩

/-! ## Claim C8: the validate short-circuit of `authenticate` -/

/-- C8 (amended): for an account holding both a client token and an access
token, `authenticate` first POSTs `validate` and, when the response has no
transport error, a status inside `[200, 230]` and no error body, treats
the token as valid and returns the account unchanged, with `validate` the
only upstream call made. -/
theorem c8_validate_short_circuit (env : AuthEnv) (a : Account)
    (hct : a.clientToken.isSome = true) (hat : a.accessToken.isSome = true)
    (herr : env.validateErr = false) (hlo : 200 ≤ env.validateStatus)
    (hhi : env.validateStatus ≤ 230) (hbody : env.validateBodyError = false) :
    authenticate env a = (.ok a, [AuthCall.validateCall]) := by
  unfold authenticate
  have hcond : ¬(env.validateErr = true ∨ env.validateStatus < 200 ∨
      env.validateStatus > 230 ∨ env.validateBodyError = true) := by
    simp only [herr, hbody, Bool.false_eq_true, false_or, or_false]
    omega
  rw [if_pos ⟨hct, hat⟩, if_neg hcond]

/-- Auth environment whose `validate` answers 250: a 2xx status outside
the accepted `[200, 230]` window. -/
def c8Env : AuthEnv :=
  { validateErr := false, validateStatus := 250, validateBodyError := false
    refreshErr := false, refreshAccessToken := "newtoken"
    loginErr := false, loginAccessToken := "lt", freshClientToken := "fc" }

/-- An account with both tokens present. -/
def c8Account : Account :=
  { id := 2, enabled := true, requestServer := none, lastRequestServer := none
    lastSelected := none, lastUsed := none, forcedTimeoutAt := none
    errorCounter := 0, successCounter := 0, totalErrorCounter := 0
    totalSuccessCounter := 0, timeAdded := 0, sameTextureCounter := 0
    clientToken := some "ct", accessToken := some "at" }

/-- C8 counterexample: the claim says any 2xx `validate` status means the
token is treated as valid and the account returned unchanged with no
`refresh`/`login` call; status 250 is 2xx with no error, yet `authenticate`
calls `refresh` and returns a modified account. -/
theorem c8_counterexample :
    200 ≤ c8Env.validateStatus ∧ c8Env.validateStatus < 300 ∧
    c8Env.validateErr = false ∧ c8Env.validateBodyError = false ∧
    c8Account.accessToken.isSome = true ∧
    AuthCall.refreshCall ∈ (authenticate c8Env c8Account).2 ∧
    (authenticate c8Env c8Account).1 ≠ Except.ok c8Account := by
  decide

/-- C8 witness: the amended theorem at a concrete in-window `validate`
response. -/
theorem c8_witness :
    (c8Account.clientToken.isSome = true ∧ c8Account.accessToken.isSome = true ∧
      sampleAuthEnv.validateErr = false ∧ 200 ≤ sampleAuthEnv.validateStatus ∧
      sampleAuthEnv.validateStatus ≤ 230 ∧ sampleAuthEnv.validateBodyError = false) ∧
    authenticate sampleAuthEnv c8Account = (.ok c8Account, [AuthCall.validateCall]) :=
  ⟨by decide,
    c8_validate_short_circuit sampleAuthEnv c8Account (by decide) (by decide)
      (by decide) (by decide) (by decide) (by decide)⟩

/-! ## Claim C6: the acquire/release timestamps -/

/-- `updateRequestServer` only touches the request-server bookkeeping. -/
theorem updateRequestServer_timestamps (a : Account) (n : Option String) :
    (updateRequestServer a n).lastUsed = a.lastUsed ∧
    (updateRequestServer a n).lastSelected = a.lastSelected := by
  unfold updateRequestServer
  split <;> exact ⟨rfl, rfl⟩

/-- A successful `authenticate` mutates only the token fields: the two
scheduler timestamps survive it. -/
theorem authenticate_ok_timestamps (env : AuthEnv) (a a1 : Account)
    (h : (authenticate env a).1 = .ok a1) :
    a1.lastSelected = a.lastSelected ∧ a1.lastUsed = a.lastUsed := by
  unfold authenticate authLogin at h
  repeat' split at h
  all_goals simp_all
  all_goals (subst h; exact ⟨rfl, rfl⟩)

/-- The account handed out by `findUsable` carries `lastSelected = now`. -/
theorem findUsable_lastSelected (env : GenEnv) (st : GenState) (account : Account)
    (stA : GenState) (h : findUsable env st = (some account, stA)) :
    account.lastSelected = some env.time := by
  unfold findUsable at h
  cases hq : findUsableQuery env.server env.errorThreshold env.time st.locked st.accounts with
  | none => rw [hq] at h; simp at h
  | some a0 =>
    rw [hq] at h
    simp only [Prod.mk.injEq, Option.some.injEq] at h
    obtain ⟨h1, _⟩ := h
    rw [← h1]
    rfl

/-- C6 (amended): an acquired account carries both `lastSelected = now`
and `lastUsed = now` stamped at the moment of acquire
(`lastUsed` is set inside `getAndAuthenticateAccount`, before any upstream
skin change), and neither release handler modifies `lastUsed` — so after a
release-failure the account keeps the acquire-time `lastUsed`, not its
pre-acquire value. -/
theorem c6_timestamps (env : GenEnv) (st : GenState) (acc : Account) (st1 : GenState)
    (h : getAndAuthenticateAccount env st = (.ok acc, st1)) :
    acc.lastSelected = some env.time ∧
    acc.lastUsed = some env.time ∧
    (handleGenerateSuccess acc).lastUsed = some env.time ∧
    (∀ (b : Bool) (now2 : Int), (handleGenerateError b now2 acc).lastUsed = some env.time) := by
  unfold getAndAuthenticateAccount at h
  rcases hfu : findUsable env st with ⟨maybe, stA⟩
  rw [hfu] at h
  cases maybe with
  | none => simp at h
  | some account =>
    dsimp only at h
    cases hauth : (authenticate env.auth account).1 with
    | error e => rw [hauth] at h; simp at h
    | ok a1 =>
      rw [hauth] at h
      simp only [Prod.mk.injEq, Except.ok.injEq] at h
      obtain ⟨h1, _⟩ := h
      have hsel := (authenticate_ok_timestamps env.auth account a1 hauth).1
      rw [findUsable_lastSelected env st account stA hfu] at hsel
      subst h1
      have hts := updateRequestServer_timestamps
        { a1 with lastUsed := some env.time } (some env.server)
      refine ⟨?_, ?_, ?_, ?_⟩
      · rw [hts.2]
        exact hsel
      · rw [hts.1]
      · unfold handleGenerateSuccess
        rw [hts.1]
      · intro b now2
        cases b with
        | false =>
          unfold handleGenerateError
          simp only [Bool.false_eq_true, if_false]
          rw [hts.1]
        | true =>
          unfold handleGenerateError
          simp only [if_true]
          rw [(updateRequestServer_timestamps _ _).1]
          rw [hts.1]

/-- An eligible pool account whose pre-acquire `lastUsed` is 0. -/
def c6Account : Account :=
  { id := 1, enabled := true, requestServer := none, lastRequestServer := none
    lastSelected := none, lastUsed := some 0, forcedTimeoutAt := none
    errorCounter := 0, successCounter := 0, totalErrorCounter := 0
    totalSuccessCounter := 0, timeAdded := 0, sameTextureCounter := 0
    clientToken := some "ct", accessToken := some "at" }

/-- Pool state holding only `c6Account`. -/
def c6St : GenState :=
  { catalog := [], accounts := [c6Account], locked := [], events := [] }

/-- The account as acquired at `time = 1000`. -/
def c6Acquired : Account :=
  { c6Account with
    lastSelected := some 1000, lastUsed := some 1000, requestServer := some "s1" }

/-- The account as persisted by `findUsable` (before the in-memory
`lastUsed` stamp). -/
def c6Selected : Account := { c6Account with lastSelected := some 1000 }

/-- World state right after the acquire. -/
def c6StAfter : GenState :=
  { catalog := [], accounts := [c6Selected], locked := [1]
    events := [.acquireAccount 1] }

/-- C6 counterexample: the claim says a release-failure leaves `lastUsed`
at its pre-acquire value; here the pre-acquire value is `some 0`, the
acquire at `now = 1000` stamps `lastUsed := some 1000`, and the failure
handler keeps that stamp, so the released account's `lastUsed` differs
from the pre-acquire value. -/
theorem c6_counterexample :
    c6Account.lastUsed = some 0 ∧
    (getAndAuthenticateAccount sampleEnv c6St).1 = .ok c6Acquired ∧
    (handleGenerateError false sampleEnv.time c6Acquired).lastUsed ≠ c6Account.lastUsed := by
  decide

/-- C6 witness: the amended timestamp theorem at the concrete acquire. -/
theorem c6_witness :
    getAndAuthenticateAccount sampleEnv c6St = (.ok c6Acquired, c6StAfter) ∧
    (c6Acquired.lastSelected = some sampleEnv.time ∧
      c6Acquired.lastUsed = some sampleEnv.time ∧
      (handleGenerateSuccess c6Acquired).lastUsed = some sampleEnv.time ∧
      (∀ (b : Bool) (now2 : Int),
        (handleGenerateError b now2 c6Acquired).lastUsed = some sampleEnv.time)) :=
  ⟨by decide, c6_timestamps sampleEnv c6St c6Acquired c6StAfter (by decide)⟩

/-! ## Event-trace bookkeeping lemmas -/

/-- Number of `tempAcquire dir` events in a trace. -/
def tempAcqCount (dir : TempDir) (evs : List Event) : Nat :=
  evs.countP (fun e => e == .tempAcquire dir)

/-- Number of `tempRelease dir` events in a trace. -/
def tempRelCount (dir : TempDir) (evs : List Event) : Nat :=
  evs.countP (fun e => e == .tempRelease dir)

/-- Events a duplicate-hit run must not contain: account locking, the
upstream skin-change call, and catalog insertion. -/
def isForbiddenDuringDuplicate : Event → Bool
  | .acquireAccount _ => true
  | .upstreamSkinChange => true
  | .insertSkin _ => true
  | _ => false

/-- Catalog-insertion events. -/
def isInsertEvent : Event → Bool
  | .insertSkin _ => true
  | _ => false

/-- A missed image-hash probe leaves the state untouched. -/
theorem findDuplicateFromImageHash_none (hash : String) (options : GenerateOptions)
    (type : GenerateType) (st st1 : GenState)
    (h : findDuplicateFromImageHash hash options type st = (none, st1)) : st1 = st := by
  unfold findDuplicateFromImageHash at h
  split at h
  · simp only [Prod.mk.injEq, true_and] at h
    exact h.symm
  · split at h
    · simp at h
    · simp only [Prod.mk.injEq, true_and] at h
      exact h.symm

/-- A hitting image-hash probe returns a catalog entry with its duplicate
counter incremented and appends exactly one duplicate-metric event. -/
theorem findDuplicateFromImageHash_some (hash : String) (options : GenerateOptions)
    (type : GenerateType) (st : GenState) (d : SkinDoc) (st1 : GenState)
    (h : findDuplicateFromImageHash hash options type st = (some d, st1)) :
    (∃ s ∈ st.catalog, d = incDuplicate s) ∧
    st1.events = .duplicateMetric .imageHash type :: st.events := by
  unfold findDuplicateFromImageHash at h
  split at h
  · simp at h
  · split at h
    · next existingSkin heq =>
      simp only [Prod.mk.injEq, Option.some.injEq] at h
      obtain ⟨hd, hst⟩ := h
      refine ⟨⟨existingSkin, List.mem_of_find?_eq_some heq, hd.symm⟩, ?_⟩
      rw [← hst]
      rfl
    · simp at h

/-- A missed uuid probe leaves the state untouched. -/
theorem findDuplicateFromUuid_none (uuidStr : String) (options : GenerateOptions)
    (type : GenerateType) (st st1 : GenState)
    (h : findDuplicateFromUuid uuidStr options type st = (none, st1)) : st1 = st := by
  unfold findDuplicateFromUuid at h
  split at h
  · simp only [Prod.mk.injEq, true_and] at h
    exact h.symm
  · split at h
    · simp at h
    · simp only [Prod.mk.injEq, true_and] at h
      exact h.symm

/-- A hitting uuid probe returns a catalog entry with its duplicate
counter incremented and appends exactly one duplicate-metric event. -/
theorem findDuplicateFromUuid_some (uuidStr : String) (options : GenerateOptions)
    (type : GenerateType) (st : GenState) (d : SkinDoc) (st1 : GenState)
    (h : findDuplicateFromUuid uuidStr options type st = (some d, st1)) :
    (∃ s ∈ st.catalog, d = incDuplicate s) ∧
    st1.events = .duplicateMetric .userUuid type :: st.events := by
  unfold findDuplicateFromUuid at h
  split at h
  · simp at h
  · split at h
    · next existingSkin heq =>
      simp only [Prod.mk.injEq, Option.some.injEq] at h
      obtain ⟨hd, hst⟩ := h
      refine ⟨⟨existingSkin, List.mem_of_find?_eq_some heq, hd.symm⟩, ?_⟩
      rw [← hst]
      rfl
    · simp at h

/-- A missed url probe leaves the state untouched. -/
theorem findDuplicateFromUrl_none (env : GenEnv) (url : String)
    (options : GenerateOptions) (type : GenerateType) (st st1 : GenState)
    (h : findDuplicateFromUrl env url options type st = (none, st1)) : st1 = st := by
  unfold findDuplicateFromUrl at h
  split at h
  · simp only [Prod.mk.injEq, true_and] at h
    exact h.symm
  · split at h
    · split at h
      · simp at h
      · simp only [Prod.mk.injEq, true_and] at h
        exact h.symm
    · split at h
      · split at h
        · simp at h
        · simp only [Prod.mk.injEq, true_and] at h
          exact h.symm
      · simp only [Prod.mk.injEq, true_and] at h
        exact h.symm

/-- A hitting url probe returns a catalog entry with its duplicate counter
incremented and appends exactly one duplicate-metric event. -/
theorem findDuplicateFromUrl_some (env : GenEnv) (url : String)
    (options : GenerateOptions) (type : GenerateType) (st : GenState) (d : SkinDoc)
    (st1 : GenState) (h : findDuplicateFromUrl env url options type st = (some d, st1)) :
    (∃ s ∈ st.catalog, d = incDuplicate s) ∧
    ∃ src, st1.events = .duplicateMetric src type :: st.events := by
  unfold findDuplicateFromUrl at h
  split at h
  · simp at h
  · split at h
    · split at h
      · next existingSkin heq =>
        simp only [Prod.mk.injEq, Option.some.injEq] at h
        obtain ⟨hd, hst⟩ := h
        refine ⟨⟨existingSkin, List.mem_of_find?_eq_some heq, hd.symm⟩, .mineskinUrl, ?_⟩
        rw [← hst]
        rfl
      · simp at h
    · split at h
      · split at h
        · next existingSkin heq =>
          simp only [Prod.mk.injEq, Option.some.injEq] at h
          obtain ⟨hd, hst⟩ := h
          refine ⟨⟨existingSkin, List.mem_of_find?_eq_some heq, hd.symm⟩, .textureUrl, ?_⟩
          rw [← hst]
          rfl
        · simp at h
      · simp at h

/-- `validateTempFile` leaves the trace alone or appends exactly one
duplicate-metric event. -/
theorem validateTempFile_events (env : GenEnv) (options : GenerateOptions)
    (type : GenerateType) (st : GenState) :
    ((validateTempFile env options type st).2.2).events = st.events ∨
    ∃ src, ((validateTempFile env options type st).2.2).events =
      .duplicateMetric src type :: st.events := by
  unfold validateTempFile
  dsimp only
  repeat' split
  all_goals
    first
      | exact Or.inl rfl
      | (rename_i heq; exact Or.inr ⟨_, (findDuplicateFromImageHash_some _ _ _ _ _ _ heq).2⟩)
      | (rename_i heq; exact Or.inl (by rw [findDuplicateFromImageHash_none _ _ _ _ _ heq]))
      | (rename_i heq _; exact Or.inr ⟨_, (findDuplicateFromImageHash_some _ _ _ _ _ _ heq).2⟩)
      | (rename_i heq _; exact Or.inl (by rw [findDuplicateFromImageHash_none _ _ _ _ _ heq]))

/-- A duplicate outcome of `validateTempFile` is an incremented catalog
entry, recorded by exactly one duplicate-metric event. -/
theorem validateTempFile_dup (env : GenEnv) (options : GenerateOptions)
    (type : GenerateType) (st : GenState) (d : SkinDoc)
    (h : (validateTempFile env options type st).1 = .ok (.dup d)) :
    (∃ s ∈ st.catalog, d = incDuplicate s) ∧
    ((validateTempFile env options type st).2.2).events =
      .duplicateMetric .imageHash type :: st.events := by
  revert h
  unfold validateTempFile
  dsimp only
  repeat' split
  all_goals intro h
  all_goals try solve | (exfalso; simp at h)
  all_goals simp at h
  all_goals subst h
  all_goals
    first
      | (rename_i heq
         exact ⟨(findDuplicateFromImageHash_some _ _ _ _ _ _ heq).1,
           (findDuplicateFromImageHash_some _ _ _ _ _ _ heq).2⟩)
      | (rename_i heq _
         exact ⟨(findDuplicateFromImageHash_some _ _ _ _ _ _ heq).1,
           (findDuplicateFromImageHash_some _ _ _ _ _ _ heq).2⟩)

/-- `findUsable` leaves the trace alone or appends exactly one
account-lock event. -/
theorem findUsable_events (env : GenEnv) (st : GenState) (maybe : Option Account)
    (st1 : GenState) (h : findUsable env st = (maybe, st1)) :
    st1.events = st.events ∨ ∃ id, st1.events = .acquireAccount id :: st.events := by
  unfold findUsable at h
  split at h
  · simp only [Prod.mk.injEq] at h
    obtain ⟨-, hst⟩ := h
    subst hst
    exact Or.inl rfl
  · next account _ =>
    simp only [Prod.mk.injEq] at h
    obtain ⟨-, hst⟩ := h
    subst hst
    exact Or.inr ⟨account.id, rfl⟩

/-- `getAndAuthenticateAccount` leaves the trace alone or appends exactly
one account-lock event. -/
theorem getAndAuthenticateAccount_events (env : GenEnv) (st : GenState)
    (r : Except RunError Account) (st1 : GenState)
    (h : getAndAuthenticateAccount env st = (r, st1)) :
    st1.events = st.events ∨ ∃ id, st1.events = .acquireAccount id :: st.events := by
  unfold getAndAuthenticateAccount at h
  split at h
  · next stA heq =>
    simp only [Prod.mk.injEq] at h
    obtain ⟨-, hst⟩ := h
    subst hst
    exact findUsable_events _ _ _ _ heq
  · next account stA heq =>
    dsimp only at h
    split at h <;>
    · simp only [Prod.mk.injEq] at h
      obtain ⟨-, hst⟩ := h
      subst hst
      have hfu := findUsable_events env st (some account) stA heq
      simpa [saveAccountDoc] using hfu

/-- `getMojangHash` appends exactly one matched temp acquire/release pair
in the upstream-fetch root, on both its branches. -/
theorem getMojangHash_events (env : GenEnv) (st : GenState)
    (r : Except RunError String) (st1 : GenState)
    (h : getMojangHash env st = (r, st1)) :
    st1.events = .tempRelease .mojDir :: .tempAcquire .mojDir :: st.events := by
  unfold getMojangHash at h
  split at h <;>
  · simp only [Prod.mk.injEq] at h
    obtain ⟨-, hst⟩ := h
    subst hst
    rfl

/-- The catch/finally wrapper only appends the temp release (when a temp
file was acquired); the account bookkeeping of the catch clause emits no
events. -/
theorem catchAndRelease_events (env : GenEnv) (dir : TempDir)
    (r : Except RunError GenerateResult) (flag : Bool) (acct : Option Account)
    (st : GenState) :
    (catchAndRelease env dir r flag acct st).events =
      (if flag = true then [Event.tempRelease dir] else []) ++ st.events := by
  unfold catchAndRelease
  cases r <;> cases acct <;> cases flag <;> simp [saveAccountDoc, emit]

/-- The trace discipline of a pipeline section: it extends the trace by a
block whose temp events leave, for each directory, `k dir` more acquires
than releases, and whose inserted records all carry zeroed counters. -/
def EvDelta (k : TempDir → Nat) (evs evs0 : List Event) : Prop :=
  ∃ delta, evs = delta ++ evs0 ∧
    (∀ dir, tempAcqCount dir delta = tempRelCount dir delta + k dir) ∧
    (∀ s, Event.insertSkin s ∈ delta → s.duplicate = 0 ∧ s.views = 0)

/-- The temp imbalance of a section that acquired a temp file in `td` when
`flag` is set. -/
def kOf (td : TempDir) (flag : Bool) : TempDir → Nat :=
  fun dir => if flag = true ∧ dir = td then 1 else 0

theorem EvDelta_nil (evs : List Event) : EvDelta (fun _ => 0) evs evs :=
  ⟨[], by simp, fun dir => by simp [tempAcqCount, tempRelCount], fun s hs => by simp at hs⟩

theorem EvDelta_k_ext {k1 k2 : TempDir → Nat} {evs evs0 : List Event}
    (hk : ∀ d, k1 d = k2 d) (h : EvDelta k1 evs evs0) : EvDelta k2 evs evs0 := by
  obtain ⟨delta, h1, h2, h3⟩ := h
  exact ⟨delta, h1, fun dir => by rw [h2 dir, hk dir], h3⟩

/-- Composing two sections adds their imbalances. -/
theorem EvDelta_trans {k1 k2 : TempDir → Nat} {e2 e1 e0 : List Event}
    (h21 : EvDelta k1 e2 e1) (h10 : EvDelta k2 e1 e0) :
    EvDelta (fun d => k2 d + k1 d) e2 e0 := by
  obtain ⟨d1, hd1, hb1, hi1⟩ := h21
  obtain ⟨d2, hd2, hb2, hi2⟩ := h10
  refine ⟨d1 ++ d2, by rw [hd1, hd2, List.append_assoc], fun dir => ?_, fun s hs => ?_⟩
  · have h1 := hb1 dir
    have h2 := hb2 dir
    simp only [tempAcqCount, tempRelCount, List.countP_append] at h1 h2 ⊢
    omega
  · rcases List.mem_append.mp hs with h | h
    · exact hi1 s h
    · exact hi2 s h

/-- Prepending a single non-temp, non-insert event. -/
theorem EvDelta_single (e : Event)
    (ha : ∀ dir, (e == Event.tempAcquire dir) = false)
    (hr : ∀ dir, (e == Event.tempRelease dir) = false)
    (hi : ∀ s, e ≠ Event.insertSkin s) (evs : List Event) :
    EvDelta (fun _ => 0) (e :: evs) evs := by
  refine ⟨[e], rfl, fun dir => ?_, fun s hs => ?_⟩
  · simp [tempAcqCount, tempRelCount, List.countP_cons, ha dir, hr dir]
  · simp only [List.mem_singleton] at hs
    exact absurd hs.symm (hi s)

theorem EvDelta_dupMetric (src : DuplicateSource) (ty : GenerateType) (evs : List Event) :
    EvDelta (fun _ => 0) (Event.duplicateMetric src ty :: evs) evs :=
  EvDelta_single _ (fun dir => by simp) (fun dir => by simp) (fun s => by simp) evs

theorem EvDelta_newMetric (evs : List Event) :
    EvDelta (fun _ => 0) (Event.newMetric :: evs) evs :=
  EvDelta_single _ (fun dir => by simp) (fun dir => by simp) (fun s => by simp) evs

theorem EvDelta_acquireAccount (id : Nat) (evs : List Event) :
    EvDelta (fun _ => 0) (Event.acquireAccount id :: evs) evs :=
  EvDelta_single _ (fun dir => by simp) (fun dir => by simp) (fun s => by simp) evs

theorem EvDelta_upstream (evs : List Event) :
    EvDelta (fun _ => 0) (Event.upstreamSkinChange :: evs) evs :=
  EvDelta_single _ (fun dir => by simp) (fun dir => by simp) (fun s => by simp) evs

/-- The matched acquire/release pair of `getMojangHash`. -/
theorem EvDelta_mojPair (evs : List Event) :
    EvDelta (fun _ => 0)
      (Event.tempRelease .mojDir :: Event.tempAcquire .mojDir :: evs) evs := by
  refine ⟨[.tempRelease .mojDir, .tempAcquire .mojDir], rfl, fun dir => ?_, fun s hs => ?_⟩
  · cases dir <;> decide
  · simp at hs

/-- The lone temp acquisition of the URL/upload flows. -/
theorem EvDelta_tempAcq (td : TempDir) (evs : List Event) :
    EvDelta (kOf td true) (Event.tempAcquire td :: evs) evs := by
  refine ⟨[.tempAcquire td], rfl, fun dir => ?_, fun s hs => ?_⟩
  · cases td <;> cases dir <;> decide
  · simp at hs

/-- The `finally` release closes the section's imbalance. -/
theorem EvDelta_relClose {td : TempDir} {evs evs0 : List Event}
    (h : EvDelta (kOf td true) evs evs0) :
    EvDelta (fun _ => 0) (Event.tempRelease td :: evs) evs0 := by
  obtain ⟨delta, hδ, hb, hi⟩ := h
  subst hδ
  refine ⟨.tempRelease td :: delta, rfl, fun dir => ?_, fun s hs => ?_⟩
  · have := hb dir
    simp only [kOf] at this
    by_cases hdir : dir = td <;>
      simp only [tempAcqCount, tempRelCount, List.countP_cons] at this ⊢ <;>
      [skip; skip] <;>
      · by_cases hbeq : (Event.tempRelease td == Event.tempRelease dir) = true <;>
        simp_all [beq_iff_eq] <;> omega
  · simp only [List.mem_cons] at hs
    rcases hs with h | h
    · exact absurd h (by simp)
    · exact hi s h

/-- The disjunction delivered by the account-stage event lemmas, as a
balanced section. -/
theorem EvDelta_of_acctDisj {evs evs0 : List Event}
    (h : evs = evs0 ∨ ∃ id, evs = .acquireAccount id :: evs0) :
    EvDelta (fun _ => 0) evs evs0 := by
  rcases h with h | ⟨id, h⟩
  · exact h ▸ EvDelta_nil evs0
  · exact h ▸ EvDelta_acquireAccount id evs0

/-- The disjunction delivered by the probe event lemmas, as a balanced
section. -/
theorem EvDelta_of_probeDisj {ty : GenerateType} {evs evs0 : List Event}
    (h : evs = evs0 ∨ ∃ src, evs = .duplicateMetric src ty :: evs0) :
    EvDelta (fun _ => 0) evs evs0 := by
  rcases h with h | ⟨src, h⟩
  · exact h ▸ EvDelta_nil evs0
  · exact h ▸ EvDelta_dupMetric src ty evs0

/-- A successful generation tail never reports a duplicate: the duplicate
field of its result is empty. -/
theorem generateTail_ok_duplicate (env : GenEnv) (ih : String) (o : GenerateOptions)
    (st : GenState) (r : GenerateResult)
    (h : (generateTail env ih o st).1 = .ok r) : r.duplicate = none := by
  revert h
  unfold generateTail
  dsimp only
  repeat' split
  all_goals intro h
  all_goals try solve | (exfalso; simp at h)
  all_goals simp at h
  all_goals subst h
  all_goals rfl

/-- The generation tail is a balanced trace section: its only temp events
are the matched pair of `getMojangHash`, and it never inserts. -/
theorem generateTail_events (env : GenEnv) (ih : String) (o : GenerateOptions)
    (st : GenState) :
    EvDelta (fun _ => 0) ((generateTail env ih o st).2.2).events st.events := by
  unfold generateTail
  dsimp only
  split
  · next e st1 heq =>
    exact EvDelta_of_acctDisj (getAndAuthenticateAccount_events _ _ _ _ heq)
  · next account st1 heq =>
    have hacct := EvDelta_of_acctDisj (getAndAuthenticateAccount_events _ _ _ _ heq)
    split
    · exact EvDelta_trans (EvDelta_upstream st1.events) hacct
    · exact EvDelta_trans (EvDelta_upstream st1.events) hacct
    · split
      · exact EvDelta_trans (EvDelta_upstream st1.events) hacct
      · next data heqD =>
        split
        · next e st3 heqM =>
          rw [getMojangHash_events env _ _ _ heqM]
          exact EvDelta_trans
            (EvDelta_trans (EvDelta_mojPair _) (EvDelta_upstream st1.events)) hacct
        · next mh st3 heqM =>
          show EvDelta (fun _ => 0) st3.events st.events
          rw [getMojangHash_events env _ _ _ heqM]
          exact EvDelta_trans
            (EvDelta_trans (EvDelta_mojPair _) (EvDelta_upstream st1.events)) hacct

theorem kOf_false (td : TempDir) : ∀ d, 0 = kOf td false d :=
  fun d => by simp [kOf]

/-- The URL try block leaves an imbalance of exactly one `urlDir` acquire
when it acquired the temp file, and inserts nothing. -/
theorem generateFromUrlTry_events (env : GenEnv) (o : GenerateOptions) (st : GenState) :
    EvDelta (kOf .urlDir (generateFromUrlTry env o st).2.1)
      ((generateFromUrlTry env o st).2.2.2.2).events st.events := by
  unfold generateFromUrlTry
  dsimp only
  split
  · exact EvDelta_k_ext (kOf_false _) (EvDelta_nil st.events)
  · split
    · exact EvDelta_k_ext (kOf_false _) (EvDelta_nil st.events)
    · next url =>
      split
      · next urlDuplicate st1 heqP =>
        show EvDelta (kOf .urlDir false) st1.events st.events
        obtain ⟨-, src, hev⟩ := findDuplicateFromUrl_some _ _ _ _ _ _ _ heqP
        rw [hev]
        exact EvDelta_k_ext (kOf_false _) (EvDelta_dupMetric src .url st.events)
      · next st1 heqP =>
        have hst1 := findDuplicateFromUrl_none _ _ _ _ _ _ heqP
        subst hst1
        split
        · exact EvDelta_k_ext (kOf_false _) (EvDelta_nil st1.events)
        · split
          · exact EvDelta_k_ext (kOf_false _) (EvDelta_nil st1.events)
          · split
            · exact EvDelta_k_ext (kOf_false _) (EvDelta_nil st1.events)
            · split
              · exact EvDelta_k_ext (kOf_false _) (EvDelta_nil st1.events)
              · split
                · exact EvDelta_tempAcq .urlDir st1.events
                · split
                  · next e options1 st3 heqV =>
                    show EvDelta (kOf .urlDir true) st3.events st1.events
                    have hv := validateTempFile_events env o .url
                      (emit (.tempAcquire .urlDir) st1)
                    rw [heqV] at hv
                    exact EvDelta_trans (EvDelta_of_probeDisj hv)
                      (EvDelta_tempAcq .urlDir st1.events)
                  · next d options1 st3 heqV =>
                    show EvDelta (kOf .urlDir true) st3.events st1.events
                    have hv := validateTempFile_events env o .url
                      (emit (.tempAcquire .urlDir) st1)
                    rw [heqV] at hv
                    exact EvDelta_trans (EvDelta_of_probeDisj hv)
                      (EvDelta_tempAcq .urlDir st1.events)
                  · next imgHash sz options1 st3 heqV =>
                    show EvDelta (kOf .urlDir true)
                      ((generateTail env imgHash options1 st3).2.2).events st1.events
                    have hv := validateTempFile_events env o .url
                      (emit (.tempAcquire .urlDir) st1)
                    rw [heqV] at hv
                    exact EvDelta_trans (generateTail_events env imgHash options1 st3)
                      (EvDelta_trans (EvDelta_of_probeDisj hv)
                        (EvDelta_tempAcq .urlDir st1.events))

/-- The upload try block leaves an imbalance of exactly one `uplDir`
acquire (the temp file is always acquired), and inserts nothing. -/
theorem generateFromUploadTry_events (env : GenEnv) (o : GenerateOptions) (st : GenState) :
    EvDelta (kOf .uplDir (generateFromUploadTry env o st).2.1)
      ((generateFromUploadTry env o st).2.2.2.2).events st.events := by
  unfold generateFromUploadTry
  dsimp only
  split
  · exact EvDelta_tempAcq .uplDir st.events
  · split
    · next e options1 st2 heqV =>
      show EvDelta (kOf .uplDir true) st2.events st.events
      have hv := validateTempFile_events env o .upload (emit (.tempAcquire .uplDir) st)
      rw [heqV] at hv
      exact EvDelta_trans (EvDelta_of_probeDisj hv) (EvDelta_tempAcq .uplDir st.events)
    · next d options1 st2 heqV =>
      show EvDelta (kOf .uplDir true) st2.events st.events
      have hv := validateTempFile_events env o .upload (emit (.tempAcquire .uplDir) st)
      rw [heqV] at hv
      exact EvDelta_trans (EvDelta_of_probeDisj hv) (EvDelta_tempAcq .uplDir st.events)
    · next imgHash sz options1 st2 heqV =>
      show EvDelta (kOf .uplDir true)
        ((generateTail env imgHash options1 st2).2.2).events st.events
      have hv := validateTempFile_events env o .upload (emit (.tempAcquire .uplDir) st)
      rw [heqV] at hv
      exact EvDelta_trans (generateTail_events env imgHash options1 st2)
        (EvDelta_trans (EvDelta_of_probeDisj hv) (EvDelta_tempAcq .uplDir st.events))

/-- The full URL flow is balanced: the finally clause closes the
try-block's temp acquisition. -/
theorem generateFromUrl_events (env : GenEnv) (o : GenerateOptions) (st : GenState) :
    EvDelta (fun _ => 0) ((generateFromUrl env o st).2.2).events st.events := by
  unfold generateFromUrl
  dsimp only
  rw [catchAndRelease_events]
  have htry := generateFromUrlTry_events env o st
  cases hflag : (generateFromUrlTry env o st).2.1 with
  | false =>
    rw [hflag] at htry
    simp only [Bool.false_eq_true, if_false, List.nil_append]
    exact EvDelta_k_ext (fun d => by simp [kOf]) htry
  | true =>
    rw [hflag] at htry
    simp only [if_true, List.singleton_append]
    exact EvDelta_relClose htry

/-- The full upload flow is balanced. -/
theorem generateFromUpload_events (env : GenEnv) (o : GenerateOptions) (st : GenState) :
    EvDelta (fun _ => 0) ((generateFromUpload env o st).2.2).events st.events := by
  unfold generateFromUpload
  dsimp only
  rw [catchAndRelease_events]
  have htry := generateFromUploadTry_events env o st
  cases hflag : (generateFromUploadTry env o st).2.1 with
  | false =>
    rw [hflag] at htry
    simp only [Bool.false_eq_true, if_false, List.nil_append]
    exact EvDelta_k_ext (fun d => by simp [kOf]) htry
  | true =>
    rw [hflag] at htry
    simp only [if_true, List.singleton_append]
    exact EvDelta_relClose htry

/-- `saveSkin` emits at most one insertion event, and the inserted record
carries zeroed counters. -/
theorem saveSkin_events (env : GenEnv) (result : GenerateResult)
    (o : GenerateOptions) (client : ClientInfo) (ty : GenerateType) (start : Int)
    (st : GenState) :
    EvDelta (fun _ => 0) ((saveSkin env result o client ty start st).2).events st.events := by
  unfold saveSkin
  try dsimp only
  repeat' split
  all_goals try exact EvDelta_nil st.events
  refine ⟨[Event.insertSkin _], rfl, fun dir => ?_, fun s hs => ?_⟩
  · simp [tempAcqCount, tempRelCount, List.countP_cons]
  · simp only [List.mem_singleton, Event.insertSkin.injEq] at hs
    subst hs
    exact ⟨rfl, rfl⟩

/-- A persisted novel record carries zeroed counters. -/
theorem saveSkin_ok_zero (env : GenEnv) (result : GenerateResult)
    (o : GenerateOptions) (client : ClientInfo) (ty : GenerateType) (start : Int)
    (st : GenState) (r : SkinDoc)
    (h : (saveSkin env result o client ty start st).1 = .ok r) :
    r.duplicate = 0 ∧ r.views = 0 := by
  revert h
  unfold saveSkin
  try dsimp only
  repeat' split
  all_goals intro h
  all_goals try solve | (exfalso; simp at h)
  all_goals simp at h
  all_goals subst h
  all_goals exact ⟨rfl, rfl⟩

/-- `getDuplicateOrSaved` is a balanced, temp-free section whose only
insertions carry zeroed counters. -/
theorem getDuplicateOrSaved_events (env : GenEnv) (result : GenerateResult)
    (o : GenerateOptions) (client : ClientInfo) (ty : GenerateType) (start : Int)
    (st : GenState) :
    EvDelta (fun _ => 0)
      ((getDuplicateOrSaved env result o client ty start st).2).events st.events := by
  unfold getDuplicateOrSaved
  try dsimp only
  split
  · exact EvDelta_nil st.events
  · split
    · exact EvDelta_trans (saveSkin_events env result o client ty start (emit .newMetric st))
        (EvDelta_newMetric st.events)
    · exact EvDelta_nil st.events

/-- The user flow is balanced: its only temp events are the matched pair
of `getMojangHash`. -/
theorem generateFromUser_events (env : GenEnv) (o : GenerateOptions) (st : GenState) :
    EvDelta (fun _ => 0) ((generateFromUser env o st).2).events st.events := by
  unfold generateFromUser
  try dsimp only
  split
  · next uuidDup st1 heqP =>
    show EvDelta (fun _ => 0) st1.events st.events
    obtain ⟨-, hev⟩ := findDuplicateFromUuid_some _ _ _ _ _ _ heqP
    rw [hev]
    exact EvDelta_dupMetric _ _ st.events
  · next st1 heqP =>
    have h1 := findDuplicateFromUuid_none _ _ _ _ _ heqP
    subst h1
    split
    · exact EvDelta_nil st1.events
    · next data heqD =>
      split
      · next e st2 heqM =>
        show EvDelta (fun _ => 0) st2.events st1.events
        rw [getMojangHash_events env _ _ _ heqM]
        exact EvDelta_mojPair st1.events
      · next mh st2 heqM =>
        show EvDelta (fun _ => 0) st2.events st1.events
        rw [getMojangHash_events env _ _ _ heqM]
        exact EvDelta_mojPair st1.events

/-- The complete URL entry point is a balanced section with zeroed-counter
insertions only. -/
theorem generateFromUrlAndSave_events (env : GenEnv) (o : GenerateOptions)
    (client : ClientInfo) (st : GenState) :
    EvDelta (fun _ => 0) ((generateFromUrlAndSave env o client st).2).events st.events := by
  unfold generateFromUrlAndSave
  split
  · next e snd st1 heq =>
    have h := generateFromUrl_events env o st
    rw [heq] at h
    exact h
  · next result options1 st1 heq =>
    have h := generateFromUrl_events env o st
    rw [heq] at h
    exact EvDelta_trans
      (getDuplicateOrSaved_events env result options1 client .url env.time st1) h

/-- The complete upload entry point is a balanced section with
zeroed-counter insertions only. -/
theorem generateFromUploadAndSave_events (env : GenEnv) (o : GenerateOptions)
    (client : ClientInfo) (st : GenState) :
    EvDelta (fun _ => 0) ((generateFromUploadAndSave env o client st).2).events st.events := by
  unfold generateFromUploadAndSave
  split
  · next e snd st1 heq =>
    have h := generateFromUpload_events env o st
    rw [heq] at h
    exact h
  · next result options1 st1 heq =>
    have h := generateFromUpload_events env o st
    rw [heq] at h
    exact EvDelta_trans
      (getDuplicateOrSaved_events env result options1 client .upload env.time st1) h

/-- The complete user entry point is a balanced section with
zeroed-counter insertions only. -/
theorem generateFromUserAndSave_events (env : GenEnv) (o : GenerateOptions)
    (client : ClientInfo) (st : GenState) :
    EvDelta (fun _ => 0) ((generateFromUserAndSave env o client st).2).events st.events := by
  unfold generateFromUserAndSave
  split
  · next e st1 heq =>
    have h := generateFromUser_events env o st
    rw [heq] at h
    exact h
  · next result st1 heq =>
    have h := generateFromUser_events env o st
    rw [heq] at h
    exact EvDelta_trans
      (getDuplicateOrSaved_events env result o client .user env.time st1) h

/-- A duplicate result of the URL try block comes from a catalog entry
with its counter incremented, and the block's trace contains no account
lock, no upstream call and no insertion. -/
theorem generateFromUrlTry_dup (env : GenEnv) (o : GenerateOptions) (st : GenState)
    (d : SkinDoc)
    (h : ((generateFromUrlTry env o st).1).map GenerateResult.duplicate =
      Except.ok (some d)) :
    (∃ s ∈ st.catalog, d = incDuplicate s) ∧
    ∃ delta, ((generateFromUrlTry env o st).2.2.2.2).events = delta ++ st.events ∧
      ∀ e ∈ delta, isForbiddenDuringDuplicate e = false := by
  revert h
  unfold generateFromUrlTry
  dsimp only
  split
  · intro h; exact absurd h (by simp [Except.map])
  · split
    · intro h; exact absurd h (by simp [Except.map])
    · next url =>
      split
      · next urlDuplicate st1 heqP =>
        intro h
        simp only [Except.map, Except.ok.injEq, Option.some.injEq] at h
        obtain ⟨hmem, src, hevP⟩ := findDuplicateFromUrl_some _ _ _ _ _ _ _ heqP
        subst h
        refine ⟨hmem, [Event.duplicateMetric src .url], ?_, ?_⟩
        · show st1.events = _
          rw [hevP]
          rfl
        · intro e he
          simp only [List.mem_singleton] at he
          subst he
          rfl
      · next st1 heqP =>
        have hst1 := findDuplicateFromUrl_none _ _ _ _ _ _ heqP
        subst hst1
        split
        · intro h; exact absurd h (by simp [Except.map])
        · split
          · intro h; exact absurd h (by simp [Except.map])
          · split
            · intro h; exact absurd h (by simp [Except.map])
            · split
              · intro h; exact absurd h (by simp [Except.map])
              · split
                · intro h; exact absurd h (by simp [Except.map])
                · split
                  · next e options1 st3 heqV =>
                    intro h; exact absurd h (by simp [Except.map])
                  · next dd options1 st3 heqV =>
                    intro h
                    simp only [Except.map, Except.ok.injEq, Option.some.injEq] at h
                    subst h
                    obtain ⟨hmem, hevV⟩ := validateTempFile_dup env o .url
                      (emit (.tempAcquire .urlDir) st1) dd (by rw [heqV])
                    rw [heqV] at hevV
                    refine ⟨hmem,
                      [Event.duplicateMetric .imageHash .url, Event.tempAcquire .urlDir],
                      ?_, ?_⟩
                    · exact hevV
                    · intro e he
                      simp only [List.mem_cons, List.mem_singleton,
                        List.not_mem_nil, or_false] at he
                      rcases he with rfl | rfl <;> rfl
                  · next imgHash sz options1 st3 heqV =>
                    intro h
                    cases hr : (generateTail env imgHash options1 st3).1 with
                    | error e =>
                      rw [hr] at h
                      exact absurd h (by simp [Except.map])
                    | ok r2 =>
                      rw [hr] at h
                      simp only [Except.map, Except.ok.injEq] at h
                      rw [generateTail_ok_duplicate env imgHash options1 st3 r2 hr] at h
                      exact absurd h (by simp)

/-- A duplicate result of the upload try block comes from a catalog entry
with its counter incremented, and the block's trace contains no account
lock, no upstream call and no insertion. -/
theorem generateFromUploadTry_dup (env : GenEnv) (o : GenerateOptions) (st : GenState)
    (d : SkinDoc)
    (h : ((generateFromUploadTry env o st).1).map GenerateResult.duplicate =
      Except.ok (some d)) :
    (∃ s ∈ st.catalog, d = incDuplicate s) ∧
    ∃ delta, ((generateFromUploadTry env o st).2.2.2.2).events = delta ++ st.events ∧
      ∀ e ∈ delta, isForbiddenDuringDuplicate e = false := by
  revert h
  unfold generateFromUploadTry
  dsimp only
  split
  · intro h; exact absurd h (by simp [Except.map])
  · split
    · next e options1 st2 heqV =>
      intro h; exact absurd h (by simp [Except.map])
    · next dd options1 st2 heqV =>
      intro h
      simp only [Except.map, Except.ok.injEq, Option.some.injEq] at h
      subst h
      obtain ⟨hmem, hevV⟩ := validateTempFile_dup env o .upload
        (emit (.tempAcquire .uplDir) st) dd (by rw [heqV])
      rw [heqV] at hevV
      refine ⟨hmem,
        [Event.duplicateMetric .imageHash .upload, Event.tempAcquire .uplDir], ?_, ?_⟩
      · exact hevV
      · intro e he
        simp only [List.mem_cons, List.mem_singleton, List.not_mem_nil, or_false] at he
        rcases he with rfl | rfl <;> rfl
    · next imgHash sz options1 st2 heqV =>
      intro h
      cases hr : (generateTail env imgHash options1 st2).1 with
      | error e =>
        rw [hr] at h
        exact absurd h (by simp [Except.map])
      | ok r2 =>
        rw [hr] at h
        simp only [Except.map, Except.ok.injEq] at h
        rw [generateTail_ok_duplicate env imgHash options1 st2 r2 hr] at h
        exact absurd h (by simp)

/-- A duplicate result of the user flow comes from a catalog entry with
its counter incremented, and the flow's trace contains no account lock,
no upstream call and no insertion. -/
theorem generateFromUser_dup (env : GenEnv) (o : GenerateOptions) (st : GenState)
    (d : SkinDoc)
    (h : ((generateFromUser env o st).1).map GenerateResult.duplicate =
      Except.ok (some d)) :
    (∃ s ∈ st.catalog, d = incDuplicate s) ∧
    ∃ delta, ((generateFromUser env o st).2).events = delta ++ st.events ∧
      ∀ e ∈ delta, isForbiddenDuringDuplicate e = false := by
  revert h
  unfold generateFromUser
  try dsimp only
  split
  · next uuidDup st1 heqP =>
    intro h
    simp only [Except.map, Except.ok.injEq, Option.some.injEq] at h
    obtain ⟨hmem, hevP⟩ := findDuplicateFromUuid_some _ _ _ _ _ _ heqP
    subst h
    refine ⟨hmem, [Event.duplicateMetric .userUuid .user], ?_, ?_⟩
    · show st1.events = _
      rw [hevP]
      rfl
    · intro e he
      simp only [List.mem_singleton] at he
      subst he
      rfl
  · next st1 heqP =>
    have hst1 := findDuplicateFromUuid_none _ _ _ _ _ heqP
    subst hst1
    split
    · intro h; exact absurd h (by simp [Except.map])
    · next data heqD =>
      split
      · next e st2 heqM =>
        intro h; exact absurd h (by simp [Except.map])
      · next mh st2 heqM =>
        intro h
        exact absurd h (by simp [Except.map])

/-! ## Claim C7: duplicate hits short-circuit the pipeline -/

/-- C7: for every generation request (URL, upload or user) whose result
reports a duplicate — a hit of the source-URL probe, the user-UUID probe
or the perceptual-hash probe — the returned document is an existing
catalog entry with its duplicate counter incremented by one, the run's
trace contains no account acquisition, no upstream skin-change call and no
insertion, and the entry-point function returns that document without
persisting anything new. -/
theorem c7_duplicate_short_circuit (env : GenEnv) (o : GenerateOptions)
    (client : ClientInfo) (st : GenState) (hev : st.events = []) :
    (∀ r o1 st1 d, generateFromUrl env o st = (.ok r, o1, st1) →
      r.duplicate = some d →
      (∃ s ∈ st.catalog, d = incDuplicate s) ∧
      (∀ e ∈ st1.events, isForbiddenDuringDuplicate e = false) ∧
      generateFromUrlAndSave env o client st = (.ok d, st1)) ∧
    (∀ r o1 st1 d, generateFromUpload env o st = (.ok r, o1, st1) →
      r.duplicate = some d →
      (∃ s ∈ st.catalog, d = incDuplicate s) ∧
      (∀ e ∈ st1.events, isForbiddenDuringDuplicate e = false) ∧
      generateFromUploadAndSave env o client st = (.ok d, st1)) ∧
    (∀ r st1 d, generateFromUser env o st = (.ok r, st1) →
      r.duplicate = some d →
      (∃ s ∈ st.catalog, d = incDuplicate s) ∧
      (∀ e ∈ st1.events, isForbiddenDuringDuplicate e = false) ∧
      generateFromUserAndSave env o client st = (.ok d, st1)) := by
  refine ⟨?_, ?_, ?_⟩
  · intro r o1 st1 d h hd
    have h1 : (generateFromUrlTry env o st).1 = .ok r := congrArg Prod.fst h
    have hmap : ((generateFromUrlTry env o st).1).map GenerateResult.duplicate =
        Except.ok (some d) := by
      rw [h1]
      simp [Except.map, hd]
    obtain ⟨hmem, delta, hδ, hforb⟩ := generateFromUrlTry_dup env o st d hmap
    have h3 : catchAndRelease env .urlDir (generateFromUrlTry env o st).1
        (generateFromUrlTry env o st).2.1 (generateFromUrlTry env o st).2.2.1
        (generateFromUrlTry env o st).2.2.2.2 = st1 :=
      congrArg (fun x => x.2.2) h
    have hevents : st1.events =
        (if (generateFromUrlTry env o st).2.1 = true
          then [Event.tempRelease .urlDir] else []) ++ (delta ++ st.events) := by
      rw [← h3, catchAndRelease_events, hδ]
    refine ⟨hmem, ?_, ?_⟩
    · intro e he
      rw [hevents, hev, List.append_nil] at he
      rcases List.mem_append.mp he with h4 | h4
      · revert h4
        split
        · intro h4
          simp only [List.mem_singleton] at h4
          subst h4
          rfl
        · intro h4
          simp at h4
      · exact hforb e h4
    · unfold generateFromUrlAndSave getDuplicateOrSaved
      rw [h]
      dsimp only
      rw [hd]
  · intro r o1 st1 d h hd
    have h1 : (generateFromUploadTry env o st).1 = .ok r := congrArg Prod.fst h
    have hmap : ((generateFromUploadTry env o st).1).map GenerateResult.duplicate =
        Except.ok (some d) := by
      rw [h1]
      simp [Except.map, hd]
    obtain ⟨hmem, delta, hδ, hforb⟩ := generateFromUploadTry_dup env o st d hmap
    have h3 : catchAndRelease env .uplDir (generateFromUploadTry env o st).1
        (generateFromUploadTry env o st).2.1 (generateFromUploadTry env o st).2.2.1
        (generateFromUploadTry env o st).2.2.2.2 = st1 :=
      congrArg (fun x => x.2.2) h
    have hevents : st1.events =
        (if (generateFromUploadTry env o st).2.1 = true
          then [Event.tempRelease .uplDir] else []) ++ (delta ++ st.events) := by
      rw [← h3, catchAndRelease_events, hδ]
    refine ⟨hmem, ?_, ?_⟩
    · intro e he
      rw [hevents, hev, List.append_nil] at he
      rcases List.mem_append.mp he with h4 | h4
      · revert h4
        split
        · intro h4
          simp only [List.mem_singleton] at h4
          subst h4
          rfl
        · intro h4
          simp at h4
      · exact hforb e h4
    · unfold generateFromUploadAndSave getDuplicateOrSaved
      rw [h]
      dsimp only
      rw [hd]
  · intro r st1 d h hd
    have h1 : (generateFromUser env o st).1 = .ok r := congrArg Prod.fst h
    have hmap : ((generateFromUser env o st).1).map GenerateResult.duplicate =
        Except.ok (some d) := by
      rw [h1]
      simp [Except.map, hd]
    obtain ⟨hmem, delta, hδ, hforb⟩ := generateFromUser_dup env o st d hmap
    have h2 : (generateFromUser env o st).2 = st1 := congrArg Prod.snd h
    refine ⟨hmem, ?_, ?_⟩
    · intro e he
      rw [← h2, hδ, hev, List.append_nil] at he
      exact hforb e he
    · unfold generateFromUserAndSave getDuplicateOrSaved
      rw [h]
      dsimp only
      rw [hd]

/-! ## Claim C9: temp-file handles are released on every path -/

/-- C9: for every run of each orchestrator entry point — whatever the
outcome — the trace carries exactly as many temp-file releases as
acquisitions, per temp directory. -/
theorem c9_temp_files_released (env : GenEnv) (o : GenerateOptions)
    (client : ClientInfo) (st : GenState) (hev : st.events = []) :
    (∀ dir, tempAcqCount dir ((generateFromUrlAndSave env o client st).2).events =
      tempRelCount dir ((generateFromUrlAndSave env o client st).2).events) ∧
    (∀ dir, tempAcqCount dir ((generateFromUploadAndSave env o client st).2).events =
      tempRelCount dir ((generateFromUploadAndSave env o client st).2).events) ∧
    (∀ dir, tempAcqCount dir ((generateFromUserAndSave env o client st).2).events =
      tempRelCount dir ((generateFromUserAndSave env o client st).2).events) := by
  refine ⟨?_, ?_, ?_⟩
  · intro dir
    obtain ⟨delta, hδ, hb, -⟩ := generateFromUrlAndSave_events env o client st
    rw [hδ, hev, List.append_nil]
    simpa using hb dir
  · intro dir
    obtain ⟨delta, hδ, hb, -⟩ := generateFromUploadAndSave_events env o client st
    rw [hδ, hev, List.append_nil]
    simpa using hb dir
  · intro dir
    obtain ⟨delta, hδ, hb, -⟩ := generateFromUserAndSave_events env o client st
    rw [hδ, hev, List.append_nil]
    simpa using hb dir

/-! ## Claim C10: new records start with zeroed counters -/

/-- C10: every record persisted by `saveSkin` — hence every record
inserted by any of the three entry points — carries `duplicate = 0` and
`views = 0`, whatever the input type or request metadata. -/
theorem c10_new_records_zeroed :
    (∀ (env : GenEnv) (o : GenerateOptions) (client : ClientInfo) (st : GenState),
      st.events = [] →
      (∀ s, Event.insertSkin s ∈ ((generateFromUrlAndSave env o client st).2).events →
        s.duplicate = 0 ∧ s.views = 0) ∧
      (∀ s, Event.insertSkin s ∈ ((generateFromUploadAndSave env o client st).2).events →
        s.duplicate = 0 ∧ s.views = 0) ∧
      (∀ s, Event.insertSkin s ∈ ((generateFromUserAndSave env o client st).2).events →
        s.duplicate = 0 ∧ s.views = 0)) ∧
    (∀ (env : GenEnv) (result : GenerateResult) (o : GenerateOptions)
        (client : ClientInfo) (ty : GenerateType) (start : Int) (st : GenState)
        (r : SkinDoc),
      (saveSkin env result o client ty start st).1 = .ok r →
      r.duplicate = 0 ∧ r.views = 0) := by
  constructor
  · intro env o client st hev
    refine ⟨?_, ?_, ?_⟩
    · intro s hs
      obtain ⟨delta, hδ, -, hi⟩ := generateFromUrlAndSave_events env o client st
      rw [hδ, hev, List.append_nil] at hs
      exact hi s hs
    · intro s hs
      obtain ⟨delta, hδ, -, hi⟩ := generateFromUploadAndSave_events env o client st
      rw [hδ, hev, List.append_nil] at hs
      exact hi s hs
    · intro s hs
      obtain ⟨delta, hδ, -, hi⟩ := generateFromUserAndSave_events env o client st
      rw [hδ, hev, List.append_nil] at hs
      exact hi s hs
  · exact saveSkin_ok_zero

/-- A catalog entry matching the C7 witness request. -/
def c7Skin : SkinDoc :=
  { id := 77, hash := "", name := "wname", uuid := "", model := "steve"
    visibility := 0, value := "v", signature := "sg", url := "http://t/x"
    minecraftTextureHash := none, textureHash := "", time := 0
    generateDuration := 0, account := none, type := .url
    duplicate := 3, views := 1, via := "", ua := "" }

/-- C7 witness request options. -/
def c7Options : GenerateOptions := { name := "wname", model := .classic, visibility := 0 }

/-- C7 witness client. -/
def c7Client : ClientInfo := { via := "v7", userAgent := "u7" }

/-- C7 witness state: one matching catalog entry. -/
def c7St : GenState := { catalog := [c7Skin], accounts := [], locked := [], events := [] }

/-- C7 witness environment: the resolved url matches the MineSkin url
pattern with capture 77. -/
def c7Env : GenEnv := { sampleEnv with mineskinMatch := some 77 }

/-- The returned duplicate: the stored entry with its counter bumped. -/
def c7Dup : SkinDoc := incDuplicate c7Skin

/-- The result of the C7 witness run. -/
def c7Result : GenerateResult := { duplicate := some c7Dup }

/-- The state after the C7 witness run. -/
def c7St1 : GenState :=
  { catalog := [c7Dup], accounts := [], locked := []
    events := [Event.duplicateMetric .mineskinUrl .url] }

/-- C7 witness: a concrete URL request hits the source-URL probe; the
short-circuit theorem applies, and the run acquired no account, made no
upstream call and inserted nothing. -/
theorem c7_witness :
    generateFromUrl c7Env c7Options c7St = (.ok c7Result, c7Options, c7St1) ∧
    c7Result.duplicate = some c7Dup ∧
    ((∃ s ∈ c7St.catalog, c7Dup = incDuplicate s) ∧
      (∀ e ∈ c7St1.events, isForbiddenDuringDuplicate e = false) ∧
      generateFromUrlAndSave c7Env c7Options c7Client c7St = (.ok c7Dup, c7St1)) :=
  ⟨by decide, by decide,
    (c7_duplicate_short_circuit c7Env c7Options c7Client c7St rfl).1 c7Result c7Options
      c7St1 c7Dup (by decide) (by decide)⟩

/-- C9 witness environment: the texture download of `getMojangHash`
fails, exercising its error path. -/
def c9Env : GenEnv := { sampleEnv with mojangDownloadOk := false }

/-- C9 witness options. -/
def c9Options : GenerateOptions := { name := "n9", model := .classic, visibility := 0 }

/-- C9 witness client. -/
def c9Client : ClientInfo := { via := "v9", userAgent := "u9" }

/-- C9 witness state: an empty world. -/
def c9St : GenState := { catalog := [], accounts := [], locked := [], events := [] }

/-- C9 witness: the release theorem at a concrete failing user run, whose
trace indeed carries exactly one acquire and one release of the
upstream-fetch root. -/
theorem c9_witness :
    (∀ dir,
      tempAcqCount dir ((generateFromUserAndSave c9Env c9Options c9Client c9St).2).events =
      tempRelCount dir ((generateFromUserAndSave c9Env c9Options c9Client c9St).2).events) ∧
    tempAcqCount .mojDir
      ((generateFromUserAndSave c9Env c9Options c9Client c9St).2).events = 1 :=
  ⟨(c9_temp_files_released c9Env c9Options c9Client c9St rfl).2.2, by decide⟩

/-- The skin data of the C10 witness result. -/
def c10Data : SkinDataV :=
  { value := "val", signature := "sig"
    decodedValue := some
      { textures := { SKIN := some { url := "http://textures.minecraft.net/texture/deadbeef" } } } }

/-- The generation result the C10 witness persists. -/
def c10Result : GenerateResult :=
  { data := some c10Data
    meta := some
      { uuid := "meta-uuid", imageHash := "0123456789abcdef0123456789abcdef"
        mojangHash := "fedcba9876543210fedcba9876543210" } }

/-- C10 witness options. -/
def c10Options : GenerateOptions := { name := "wname", model := .classic, visibility := 0 }

/-- C10 witness client. -/
def c10Client : ClientInfo := { via := "api", userAgent := "ua" }

/-- C10 witness state: an empty world. -/
def c10EmptySt : GenState := { catalog := [], accounts := [], locked := [], events := [] }

/-- The record the C10 witness run persists. -/
def c10Skin : SkinDoc :=
  { id := 5, hash := "0123456789abcdef0123456789abcdef", uuid := "meta-uuid"
    name := "wname", model := "steve", visibility := 0, value := "val"
    signature := "sig", url := "http://textures.minecraft.net/texture/deadbeef"
    minecraftTextureHash := some "deadbeef"
    textureHash := "fedcba9876543210fedcba9876543210", time := 1000
    generateDuration := 1000, account := none, type := .upload
    duplicate := 0, views := 0, via := "api", ua := "ua" }

/-- C10 witness: a concrete `saveSkin` run persists a record, and the
zeroed-counters theorem applies to it. -/
theorem c10_witness :
    (saveSkin sampleEnv c10Result c10Options c10Client .upload 0 c10EmptySt).1 =
      .ok c10Skin ∧
    c10Skin.duplicate = 0 ∧ c10Skin.views = 0 := by
  have hsave : (saveSkin sampleEnv c10Result c10Options c10Client .upload 0 c10EmptySt).1 =
      .ok c10Skin := by
    have hchar : makeNewSkinId sampleEnv.optimus sampleEnv.randoms
        (fun i => (c10EmptySt.catalog.find? (fun s => s.id == i)).isSome) =
        Except.ok 5 :=
      (makeNewSkinId_char sampleEnv.optimus sampleEnv.randoms
        (fun i => (c10EmptySt.catalog.find? (fun s => s.id == i)).isSome)).trans (by decide)
    unfold saveSkin
    rw [hchar]
    decide
  exact ⟨hsave, c10_new_records_zeroed.2 sampleEnv c10Result c10Options c10Client
    .upload 0 c10EmptySt c10Skin hsave⟩

end MineSkin
